import Mathlib

/-!
Verification of the GDevelop JS platform behavior code generator and export
helper (files `GDJS/Events/CodeGeneration/BehaviorCodeGenerator.cpp` and
`GDJS/IDE/ExporterHelper.cpp`) against their natural-language specification.

Strings are modelled as `List Char`.  The `gd::String::FindAndReplace`
operation used by every template in the code generator is modelled as a
single left-to-right scan that replaces every occurrence of a search token
and continues scanning after the inserted replacement (see `findAndReplace`
below).  All definitions are executable.
-/

set_option maxHeartbeats 4000000
set_option maxRecDepth 10000

namespace GdjsSpec

/-- Strings of the modelled program, as lists of characters. -/
abbrev GdString := List Char

/-! ## Generic string machinery: find-and-replace, occurrence testing -/

/-- Fuel-driven worker for `findAndReplace`.  At each step, if the (nonempty)
search token is a prefix of the remaining text, the replacement is emitted and
scanning continues after the token; otherwise one character is copied.
`Modelled from the spec:` the body of `gd::String::FindAndReplace` is not part
of the two source files; the spec describes template substitution as a single
linear scan that recognizes tokens and never re-scans a replacement value
(spec section 4.3 and 9). -/
def frAux (tok rep : GdString) : Nat → GdString → GdString
  | 0, s => s
  | fuel + 1, s =>
    if tok.isPrefixOf s && !tok.isEmpty then
      rep ++ frAux tok rep fuel (s.drop tok.length)
    else
      match s with
      | [] => []
      | c :: s1 => c :: frAux tok rep fuel s1

/-- Replace every occurrence of `tok` in `s` by `rep`, scanning left to right
in a single pass (an occurrence of `tok` inside `rep` is not re-scanned). -/
def findAndReplace (tok rep s : GdString) : GdString :=
  frAux tok rep s.length s

/-- Fuel-driven worker for `countOccur`: same scan as `frAux`, counting the
(non-overlapping, leftmost-first) occurrences of the token. -/
def coAux (tok : GdString) : Nat → GdString → Nat
  | 0, _ => 0
  | fuel + 1, s =>
    if tok.isPrefixOf s && !tok.isEmpty then
      1 + coAux tok fuel (s.drop tok.length)
    else
      match s with
      | [] => 0
      | _ :: s1 => coAux tok fuel s1

/-- Number of non-overlapping occurrences of `tok` in `s`, counted by the same
left-to-right scan as `findAndReplace`. -/
def countOccur (tok s : GdString) : Nat :=
  coAux tok s.length s

/-- Substring test: `occurs tok s` holds when `tok` appears contiguously in
`s`.  This models `gd::String::find(tok) != npos`. -/
def occurs (tok : GdString) : GdString → Bool
  | [] => tok.isPrefixOf []
  | c :: s1 => tok.isPrefixOf (c :: s1) || occurs tok s1

/-- `overlapFree tok s` says that no nonempty suffix of `s` starts the token
`tok` (neither a full occurrence of `tok` inside `s` nor a proper tail of `s`
that is a prefix of `tok`).  Such an `s` can be skipped by the find-and-replace
scan no matter what text follows it. -/
def overlapFree (tok s : GdString) : Bool :=
  s.tails.all fun t => t.isEmpty || (!tok.isPrefixOf t && !t.isPrefixOf tok)

theorem overlapFree_iff {tok s : GdString} :
    overlapFree tok s = true ↔
      ∀ t, t <:+ s → t ≠ [] → ¬tok <+: t ∧ ¬t <+: tok := by
  simp only [overlapFree, List.all_eq_true, Bool.or_eq_true, Bool.and_eq_true,
    Bool.not_eq_true', List.isEmpty_iff, ← List.mem_tails]
  constructor
  · intro h t ht hne
    rcases h t ht with h1 | ⟨h2, h3⟩
    · exact absurd h1 hne
    · exact ⟨fun hc => by simp [List.isPrefixOf_iff_prefix.mpr hc] at h2,
        fun hc => by simp [List.isPrefixOf_iff_prefix.mpr hc] at h3⟩
  · intro h t ht
    by_cases hne : t = []
    · exact Or.inl hne
    · rcases h t ht hne with ⟨h1, h2⟩
      refine Or.inr ⟨?_, ?_⟩
      · exact (Bool.not_eq_true _).mp (by simpa [List.isPrefixOf_iff_prefix] using h1)
      · exact (Bool.not_eq_true _).mp (by simpa [List.isPrefixOf_iff_prefix] using h2)

theorem overlapFree_nil (tok : GdString) : overlapFree tok [] = true := by
  simp [overlapFree, List.tails]

theorem overlapFree_cons_tail {tok : GdString} {c : Char} {s : GdString}
    (h : overlapFree tok (c :: s) = true) : overlapFree tok s = true := by
  rw [overlapFree_iff] at h ⊢
  intro t ht hne
  exact h t (ht.trans (List.suffix_cons c s)) hne

/-- A string which is overlap-free for a nonempty token is not that token. -/
theorem ne_of_overlapFree {tok s : GdString} (htok : tok ≠ [])
    (h : overlapFree tok s = true) : s ≠ tok := by
  rintro rfl
  rw [overlapFree_iff] at h
  exact (h s List.suffix_rfl htok).1 List.prefix_rfl

/-- A nonempty prefix-closed overlap dichotomy: if `tok` is a prefix of
`a ++ b` then it is a prefix of `a` or `a` is a prefix of `tok`. -/
theorem prefix_append_dichotomy {tok a b : GdString} (h : tok <+: a ++ b) :
    tok <+: a ∨ a <+: tok :=
  List.prefix_or_prefix_of_prefix h (List.prefix_append a b)

/-- The token never starts inside text that is overlap-free for it, whatever
follows that text. -/
theorem not_prefix_of_overlapFree {tok a b : GdString} (ha : a ≠ [])
    (h : overlapFree tok a = true) : tok.isPrefixOf (a ++ b) = false := by
  rw [overlapFree_iff] at h
  by_contra hc
  have hpre : tok <+: a ++ b :=
    List.isPrefixOf_iff_prefix.mp (by revert hc; cases tok.isPrefixOf (a ++ b) <;> simp)
  rcases prefix_append_dichotomy hpre with h1 | h1
  · exact (h a List.suffix_rfl ha).1 h1
  · exact (h a List.suffix_rfl ha).2 h1

/-- A suffix of a concatenation is a suffix of the right part, or it is some
nonempty suffix of the left part followed by the whole right part. -/
theorem suffix_append_cases {t a b : GdString} (h : t <:+ a ++ b) :
    t <:+ b ∨ ∃ m, m <:+ a ∧ m ≠ [] ∧ t = m ++ b := by
  rcases h with ⟨u, hu⟩
  rcases List.append_eq_append_iff.mp hu with ⟨m, hm1, hm2⟩ | ⟨w, hw1, hw2⟩
  · by_cases hmn : m = []
    · subst hmn
      simp only [List.nil_append] at hm2
      exact Or.inl (hm2 ▸ List.suffix_rfl)
    · exact Or.inr ⟨m, ⟨u, hm1.symm⟩, hmn, hm2⟩
  · exact Or.inl ⟨w, hw2.symm⟩

/-- Overlap-freeness is closed under concatenation. -/
theorem overlapFree_append {tok a b : GdString}
    (ha : overlapFree tok a = true) (hb : overlapFree tok b = true) :
    overlapFree tok (a ++ b) = true := by
  rw [overlapFree_iff] at ha hb ⊢
  intro t ht hne
  rcases suffix_append_cases ht with hsb | ⟨m, hma, hmn, rfl⟩
  · exact hb t hsb hne
  · have hm := ha m hma hmn
    constructor
    · intro hc
      rcases prefix_append_dichotomy hc with h1 | h1
      · exact hm.1 h1
      · exact hm.2 h1
    · intro hc
      exact hm.2 ((List.prefix_append m b).trans hc)

theorem occurs_iff {tok s : GdString} :
    occurs tok s = true ↔ ∃ t, t <:+ s ∧ tok <+: t := by
  induction s with
  | nil =>
    constructor
    · intro h
      exact ⟨[], List.suffix_rfl, by simpa [occurs, List.isPrefixOf_iff_prefix] using h⟩
    · rintro ⟨t, ht, hp⟩
      have ht0 : t = [] := List.suffix_nil.mp ht
      subst ht0
      simpa [occurs, List.isPrefixOf_iff_prefix] using hp
  | cons c s1 ih =>
    simp only [occurs, Bool.or_eq_true, ih, List.isPrefixOf_iff_prefix]
    constructor
    · rintro (h | ⟨t, ht, hp⟩)
      · exact ⟨c :: s1, List.suffix_rfl, h⟩
      · exact ⟨t, ht.trans (List.suffix_cons c s1), hp⟩
    · rintro ⟨t, ht, hp⟩
      rcases ht with ⟨u, hu⟩
      cases u with
      | nil => exact Or.inl (by simpa using hu ▸ hp)
      | cons d u1 =>
        refine Or.inr ⟨t, ⟨u1, ?_⟩, hp⟩
        simpa using congrArg List.tail hu

/-- Text that is overlap-free for a nonempty token does not contain it. -/
theorem occurs_eq_false_of_overlapFree {tok s : GdString} (htok : tok ≠ [])
    (h : overlapFree tok s = true) : occurs tok s = false := by
  rw [overlapFree_iff] at h
  by_contra hc
  have : occurs tok s = true := by revert hc; cases occurs tok s <;> simp
  rcases occurs_iff.mp this with ⟨t, ht, hp⟩
  by_cases hne : t = []
  · subst hne; exact htok (List.prefix_nil.mp hp)
  · exact (h t ht hne).1 hp

theorem occurs_append_left {tok a : GdString} (b : GdString)
    (h : occurs tok a = true) : occurs tok (a ++ b) = true := by
  rcases occurs_iff.mp h with ⟨t, ⟨u, hu⟩, hp⟩
  exact occurs_iff.mpr
    ⟨t ++ b, ⟨u, by rw [← List.append_assoc, hu]⟩, hp.trans (List.prefix_append t b)⟩

theorem occurs_append_right (a : GdString) {tok b : GdString}
    (h : occurs tok b = true) : occurs tok (a ++ b) = true := by
  rcases occurs_iff.mp h with ⟨t, ⟨u, hu⟩, hp⟩
  exact occurs_iff.mpr ⟨t, ⟨a ++ u, by rw [List.append_assoc, hu]⟩, hp⟩

/-! ### Scan equations for `findAndReplace` and `countOccur` -/

theorem frAux_nil (tok rep : GdString) : ∀ fuel, frAux tok rep fuel [] = [] := by
  intro fuel
  cases fuel with
  | zero => rfl
  | succ f => cases tok <;> simp [frAux, List.isPrefixOf]

theorem coAux_nil (tok : GdString) : ∀ fuel, coAux tok fuel [] = 0 := by
  intro fuel
  cases fuel with
  | zero => rfl
  | succ f => cases tok <;> simp [coAux, List.isPrefixOf]

theorem frAux_congr (tok rep : GdString) :
    ∀ n f1 f2 s, s.length ≤ n → s.length ≤ f1 → s.length ≤ f2 →
      frAux tok rep f1 s = frAux tok rep f2 s := by
  intro n
  induction n with
  | zero =>
    intro f1 f2 s h0 _ _
    have hs : s = [] := List.length_eq_zero.mp (Nat.le_zero.mp h0)
    subst hs
    rw [frAux_nil, frAux_nil]
  | succ n ih =>
    intro f1 f2 s h0 h1 h2
    cases s with
    | nil => rw [frAux_nil, frAux_nil]
    | cons c s1 =>
      cases f1 with
      | zero => simp at h1
      | succ g1 =>
        cases f2 with
        | zero => simp at h2
        | succ g2 =>
          simp only [frAux]
          by_cases hc : (tok.isPrefixOf (c :: s1) && !tok.isEmpty) = true
          · rw [if_pos hc, if_pos hc]
            have htok : tok ≠ [] := by
              rcases Bool.and_eq_true_iff.mp hc with ⟨_, hne⟩
              cases tok
              · simp at hne
              · simp
            have hlt : 1 ≤ tok.length := List.length_pos.mpr htok
            have hdl : ((c :: s1).drop tok.length).length = (c :: s1).length - tok.length :=
              List.length_drop tok.length (c :: s1)
            have hbound : ((c :: s1).drop tok.length).length ≤ n := by
              simp only [hdl, List.length_cons] at *
              omega
            congr 1
            exact ih g1 g2 _ hbound (by simp only [hdl, List.length_cons] at *; omega)
              (by simp only [hdl, List.length_cons] at *; omega)
          · rw [if_neg hc, if_neg hc]
            have hs1 : s1.length ≤ n := by simp only [List.length_cons] at h0; omega
            congr 1
            exact ih g1 g2 s1 hs1 (by simp only [List.length_cons] at h1; omega)
              (by simp only [List.length_cons] at h2; omega)

theorem coAux_congr (tok : GdString) :
    ∀ n f1 f2 s, s.length ≤ n → s.length ≤ f1 → s.length ≤ f2 →
      coAux tok f1 s = coAux tok f2 s := by
  intro n
  induction n with
  | zero =>
    intro f1 f2 s h0 _ _
    have hs : s = [] := List.length_eq_zero.mp (Nat.le_zero.mp h0)
    subst hs
    rw [coAux_nil, coAux_nil]
  | succ n ih =>
    intro f1 f2 s h0 h1 h2
    cases s with
    | nil => rw [coAux_nil, coAux_nil]
    | cons c s1 =>
      cases f1 with
      | zero => simp at h1
      | succ g1 =>
        cases f2 with
        | zero => simp at h2
        | succ g2 =>
          simp only [coAux]
          by_cases hc : (tok.isPrefixOf (c :: s1) && !tok.isEmpty) = true
          · rw [if_pos hc, if_pos hc]
            have htok : tok ≠ [] := by
              rcases Bool.and_eq_true_iff.mp hc with ⟨_, hne⟩
              cases tok
              · simp at hne
              · simp
            have hlt : 1 ≤ tok.length := List.length_pos.mpr htok
            have hdl : ((c :: s1).drop tok.length).length = (c :: s1).length - tok.length :=
              List.length_drop tok.length (c :: s1)
            congr 1
            exact ih g1 g2 _ (by simp only [hdl, List.length_cons] at *; omega)
              (by simp only [hdl, List.length_cons] at *; omega)
              (by simp only [hdl, List.length_cons] at *; omega)
          · rw [if_neg hc, if_neg hc]
            have hs1 : s1.length ≤ n := by simp only [List.length_cons] at h0; omega
            exact ih g1 g2 s1 hs1 (by simp only [List.length_cons] at h1; omega)
              (by simp only [List.length_cons] at h2; omega)

theorem findAndReplace_nil (tok rep : GdString) : findAndReplace tok rep [] = [] :=
  frAux_nil tok rep 0

theorem countOccur_nil (tok : GdString) : countOccur tok [] = 0 :=
  coAux_nil tok 0

theorem isEmpty_eq_false_of_ne {tok : GdString} (htok : tok ≠ []) :
    tok.isEmpty = false := by
  cases tok
  · exact absurd rfl htok
  · rfl

/-- Hitting the token at the head of the text: the replacement is emitted and
the scan continues after the token, never inside the replacement. -/
theorem findAndReplace_hit {tok : GdString} (rep : GdString) (htok : tok ≠ [])
    (b : GdString) :
    findAndReplace tok rep (tok ++ b) = rep ++ findAndReplace tok rep b := by
  have hpre : tok.isPrefixOf (tok ++ b) = true :=
    List.isPrefixOf_iff_prefix.mpr (List.prefix_append tok b)
  have hne : tok.isEmpty = false := isEmpty_eq_false_of_ne htok
  have hlt : 1 ≤ tok.length := List.length_pos.mpr htok
  have hlen : (tok ++ b).length = (tok.length - 1 + b.length) + 1 := by
    simp only [List.length_append]; omega
  show frAux tok rep (tok ++ b).length (tok ++ b) = _
  rw [hlen]
  simp only [frAux, hpre, hne, Bool.not_false, Bool.and_self, if_true, List.drop_left]
  show _ = rep ++ frAux tok rep b.length b
  congr 1
  exact frAux_congr tok rep b.length _ b.length b le_rfl (by omega) le_rfl

theorem countOccur_hit {tok : GdString} (htok : tok ≠ []) (b : GdString) :
    countOccur tok (tok ++ b) = 1 + countOccur tok b := by
  have hpre : tok.isPrefixOf (tok ++ b) = true :=
    List.isPrefixOf_iff_prefix.mpr (List.prefix_append tok b)
  have hne : tok.isEmpty = false := isEmpty_eq_false_of_ne htok
  have hlt : 1 ≤ tok.length := List.length_pos.mpr htok
  have hlen : (tok ++ b).length = (tok.length - 1 + b.length) + 1 := by
    simp only [List.length_append]; omega
  show coAux tok (tok ++ b).length (tok ++ b) = _
  rw [hlen]
  simp only [coAux, hpre, hne, Bool.not_false, Bool.and_self, if_true, List.drop_left]
  show _ = 1 + coAux tok b.length b
  congr 1
  exact coAux_congr tok b.length _ b.length b le_rfl (by omega) le_rfl

/-- Skipping overlap-free text: the scan copies it unchanged and continues on
the rest. -/
theorem findAndReplace_skip {tok a : GdString} (rep : GdString)
    (ha : overlapFree tok a = true) (b : GdString) :
    findAndReplace tok rep (a ++ b) = a ++ findAndReplace tok rep b := by
  induction a with
  | nil => simp
  | cons c a1 ih =>
    have hnp : tok.isPrefixOf (c :: (a1 ++ b)) = false := by
      have h0 := @not_prefix_of_overlapFree tok (c :: a1) b (by simp) ha
      simpa using h0
    have step : findAndReplace tok rep ((c :: a1) ++ b)
        = c :: findAndReplace tok rep (a1 ++ b) := by
      show frAux tok rep ((c :: a1) ++ b).length ((c :: a1) ++ b) = _
      simp only [List.cons_append, List.length_cons]
      simp only [frAux, hnp, Bool.false_and, Bool.false_eq_true, if_false]
      rfl
    rw [step, ih (overlapFree_cons_tail ha), List.cons_append]

theorem countOccur_skip {tok a : GdString}
    (ha : overlapFree tok a = true) (b : GdString) :
    countOccur tok (a ++ b) = countOccur tok b := by
  induction a with
  | nil => simp
  | cons c a1 ih =>
    have hnp : tok.isPrefixOf (c :: (a1 ++ b)) = false := by
      have h0 := @not_prefix_of_overlapFree tok (c :: a1) b (by simp) ha
      simpa using h0
    have step : countOccur tok ((c :: a1) ++ b) = countOccur tok (a1 ++ b) := by
      show coAux tok ((c :: a1) ++ b).length ((c :: a1) ++ b) = _
      simp only [List.cons_append, List.length_cons]
      simp only [coAux, hnp, Bool.false_and, Bool.false_eq_true, if_false]
      rfl
    rw [step, ih (overlapFree_cons_tail ha)]

/-! ### Symbolic evaluation of templates

A template in flight is a list of pieces: `lit` pieces are concrete text
(possibly an exact placeholder token) and `hole` pieces are substituted values
that the remaining find-and-replace passes must skip (they are required to be
overlap-free for the token of each later pass). -/

inductive Piece : Type
  | lit : GdString → Piece
  | hole : GdString → Piece

/-- Concatenate the text of all pieces. -/
def renderPieces : List Piece → GdString
  | [] => []
  | Piece.lit l :: ps => l ++ renderPieces ps
  | Piece.hole v :: ps => v ++ renderPieces ps

/-- Check that every concrete piece is either exactly the token or
overlap-free for it.  Hole contents are not inspected. -/
def litsOK (tok : GdString) : List Piece → Bool
  | [] => true
  | Piece.lit l :: ps => (decide (l = tok) || overlapFree tok l) && litsOK tok ps
  | Piece.hole _ :: ps => litsOK tok ps

/-- The substituted values carried by the pieces. -/
def holesOf : List Piece → List GdString
  | [] => []
  | Piece.lit _ :: ps => holesOf ps
  | Piece.hole v :: ps => v :: holesOf ps

/-- One substitution pass at the piece level: token pieces become holes
holding the replacement, everything else is untouched. -/
def substPiece (tok rep : GdString) : Piece → Piece
  | Piece.lit l => if l = tok then Piece.hole rep else Piece.lit l
  | Piece.hole v => Piece.hole v

theorem renderPieces_append :
    ∀ ps qs : List Piece, renderPieces (ps ++ qs) = renderPieces ps ++ renderPieces qs
  | [], _ => rfl
  | Piece.lit l :: ps, qs => by
    simp [renderPieces, renderPieces_append ps qs]
  | Piece.hole v :: ps, qs => by
    simp [renderPieces, renderPieces_append ps qs]

/-- Workhorse: one `findAndReplace` pass evaluated over a piece list.  The
scan replaces exactly the token pieces and copies everything else; hole
contents are skipped thanks to their overlap-freeness, which models that a
replacement value inserted by an earlier pass can be skipped whole. -/
theorem findAndReplace_pieces (tok rep : GdString) (htok : tok ≠ []) :
    ∀ ps, litsOK tok ps = true → (∀ v ∈ holesOf ps, overlapFree tok v = true) →
      findAndReplace tok rep (renderPieces ps)
        = renderPieces (ps.map (substPiece tok rep)) := by
  intro ps
  induction ps with
  | nil =>
    intro _ _
    simpa [renderPieces] using findAndReplace_nil tok rep
  | cons p ps ih =>
    intro hl hh
    cases p with
    | lit l =>
      have hl1 : (decide (l = tok) || overlapFree tok l) = true ∧ litsOK tok ps = true := by
        simpa [litsOK, Bool.and_eq_true] using hl
      by_cases heq : l = tok
      · subst heq
        simp only [renderPieces, List.map_cons, substPiece, if_pos rfl]
        rw [findAndReplace_hit rep htok, ih hl1.2 (by simpa [holesOf] using hh)]
      · have hfree : overlapFree tok l = true := by
          rcases Bool.or_eq_true_iff.mp hl1.1 with h | h
          · exact absurd (of_decide_eq_true h) heq
          · exact h
        simp only [renderPieces, List.map_cons, substPiece, if_neg heq]
        rw [findAndReplace_skip rep hfree, ih hl1.2 (by simpa [holesOf] using hh)]
    | hole v =>
      have hv : overlapFree tok v = true := hh v (by simp [holesOf])
      have hh1 : ∀ w ∈ holesOf ps, overlapFree tok w = true := by
        intro w hw
        exact hh w (by simp [holesOf, hw])
      simp only [renderPieces, List.map_cons, substPiece]
      rw [findAndReplace_skip rep hv, ih (by simpa [litsOK] using hl) hh1]

/-- Number of token pieces in a piece list. -/
def tokHitCount (tok : GdString) (ps : List Piece) : Nat :=
  ps.countP fun p => match p with
    | Piece.lit l => decide (l = tok)
    | Piece.hole _ => false

/-- Counting occurrences over a piece list whose concrete pieces are either
exactly the token or overlap-free for it: the scan finds exactly the token
pieces. -/
theorem countOccur_pieces (tok : GdString) (htok : tok ≠ []) :
    ∀ ps, litsOK tok ps = true → (∀ v ∈ holesOf ps, overlapFree tok v = true) →
      countOccur tok (renderPieces ps) = tokHitCount tok ps := by
  intro ps
  induction ps with
  | nil =>
    intro _ _
    simpa [renderPieces, tokHitCount] using countOccur_nil tok
  | cons p ps ih =>
    intro hl hh
    cases p with
    | lit l =>
      have hl1 : (decide (l = tok) || overlapFree tok l) = true ∧ litsOK tok ps = true := by
        simpa [litsOK, Bool.and_eq_true] using hl
      by_cases heq : l = tok
      · subst heq
        simp only [renderPieces, tokHitCount, List.countP_cons, decide_eq_true_eq]
        rw [countOccur_hit htok, ih hl1.2 (by simpa [holesOf] using hh)]
        simp [tokHitCount]
        omega
      · have hfree : overlapFree tok l = true := by
          rcases Bool.or_eq_true_iff.mp hl1.1 with h | h
          · exact absurd (of_decide_eq_true h) heq
          · exact h
        simp only [renderPieces]
        rw [countOccur_skip hfree, ih hl1.2 (by simpa [holesOf] using hh)]
        simp [tokHitCount, List.countP_cons, heq]
    | hole v =>
      have hv : overlapFree tok v = true := hh v (by simp [holesOf])
      simp only [renderPieces]
      rw [countOccur_skip hv, ih (by simpa [litsOK] using hl)
        (fun w hw => hh w (by simp [holesOf, hw]))]
      simp [tokHitCount, List.countP_cons]

/-- Text rendered from pieces that are all overlap-free for a token is itself
overlap-free for that token. -/
theorem overlapFree_renderPieces {tok : GdString} :
    ∀ ps : List Piece,
      (∀ l, Piece.lit l ∈ ps → overlapFree tok l = true) →
      (∀ v ∈ holesOf ps, overlapFree tok v = true) →
      overlapFree tok (renderPieces ps) = true := by
  intro ps
  induction ps with
  | nil => intro _ _; exact overlapFree_nil tok
  | cons p ps ih =>
    intro hl hh
    cases p with
    | lit l =>
      refine overlapFree_append (hl l (by simp)) ?_
      exact ih (fun l2 h2 => hl l2 (by simp [h2])) (by simpa [holesOf] using hh)
    | hole v =>
      refine overlapFree_append (hh v (by simp [holesOf])) ?_
      exact ih (fun l2 h2 => hl l2 (by simp [h2]))
        (fun w hw => hh w (by simp [holesOf, hw]))

/-! ## Data model of the behavior code generator
(`GDJS/Events/CodeGeneration/BehaviorCodeGenerator.cpp`) -/

/-- One behavior property (`gd::NamedPropertyDescriptor`): its name, type tag,
raw default value text and hidden flag, as read by the generator. -/
structure NamedPropertyDescriptor : Type where
  name : GdString
  type : GdString
  value : GdString
  hidden : Bool

/-- One event function of a behavior (`gd::EventsFunction`); only its name is
inspected by this generator, the body is compiled by the external statement
compiler. -/
structure EventsFunction : Type where
  name : GdString

/-- An events-based behavior (`gd::EventsBasedBehavior`): name, human label
and ordered property / event-function sequences. -/
structure EventsBasedBehavior : Type where
  name : GdString
  fullName : GdString
  propertyDescriptors : List NamedPropertyDescriptor
  eventsFunctions : List EventsFunction

/-! Placeholder tokens of the templates in `BehaviorCodeGenerator.cpp`. -/

def tokEXTENSION_NAME : GdString := "EXTENSION_NAME".toList

def tokBEHAVIOR_NAME : GdString := "BEHAVIOR_NAME".toList

def tokBEHAVIOR_FULL_NAME : GdString := "BEHAVIOR_FULL_NAME".toList

def tokRUNTIME_BEHAVIOR_CLASSNAME : GdString := "RUNTIME_BEHAVIOR_CLASSNAME".toList

def tokCODE_NAMESPACE : GdString := "CODE_NAMESPACE".toList

def tokINITIALIZE_PROPERTIES_CODE : GdString := "INITIALIZE_PROPERTIES_CODE".toList

def tokUPDATE_FROM_BEHAVIOR_DATA_CODE : GdString := "UPDATE_FROM_BEHAVIOR_DATA_CODE".toList

def tokPROPERTIES_CODE : GdString := "PROPERTIES_CODE".toList

def tokMETHODS_CODE : GdString := "METHODS_CODE".toList

def tokPROPERTY_NAME : GdString := "PROPERTY_NAME".toList

def tokGETTER_NAME : GdString := "GETTER_NAME".toList

def tokSETTER_NAME : GdString := "SETTER_NAME".toList

def tokDEFAULT_VALUE : GdString := "DEFAULT_VALUE".toList

/-- `Modelled from the spec:` the body of
`EventsCodeGenerator::ConvertToStringExplicit` is not part of the two source
files; the spec says String/Choice defaults render as a quoted-and-escaped
string literal.  This is the escaping part (backslash, quote, newline and
carriage return escaped). -/
def escapeForJs : GdString → GdString
  | [] => []
  | c :: s =>
    (if c = '\\' then [ '\\', '\\' ]
     else if c = '"' then [ '\\', '"' ]
     else if c = '\n' then [ '\\', 'n' ]
     else if c = '\r' then [ '\\', 'r' ]
     else [ c ]) ++ escapeForJs s

/-- `Modelled from the spec:` quoted-and-escaped string literal of a raw
value. -/
def convertToStringExplicit (v : GdString) : GdString :=
  '"' :: (escapeForJs v ++ [ '"' ])

def strString : GdString := "String".toList

def strChoice : GdString := "Choice".toList

def strNumber : GdString := "Number".toList

def strBoolean : GdString := "Boolean".toList

def strTrue : GdString := "true".toList

def strFalse : GdString := "false".toList

def numberCoercionOpen : GdString := "Number(".toList

def numberCoercionClose : GdString := ") || 0".toList

def unrecognizedTypeErrorValue : GdString :=
  "0 /* Error: property was of an unrecognized type */".toList

/-- `BehaviorCodeGenerator::GeneratePropertyValueCode`: render the default
value of a property as a literal of the generated language, by type tag. -/
def generatePropertyValueCode (p : NamedPropertyDescriptor) : GdString :=
  if p.type = strString ∨ p.type = strChoice then
    convertToStringExplicit p.value
  else if p.type = strNumber then
    numberCoercionOpen ++ convertToStringExplicit p.value ++ numberCoercionClose
  else if p.type = strBoolean then
    (if p.value = strTrue then strTrue else strFalse)
  else
    unrecognizedTypeErrorValue

/-! Templates, transcribed verbatim from the raw string literals of
`BehaviorCodeGenerator.cpp` (each starts with the newline that follows the
opening of the raw literal). -/

def initializePropertyFromDataTemplate : GdString :=
  "\n    this._behaviorData.PROPERTY_NAME = behaviorData.PROPERTY_NAME !== undefined ? behaviorData.PROPERTY_NAME : DEFAULT_VALUE;".toList

def initializePropertyFromDefaultValueTemplate : GdString :=
  "\n    this._behaviorData.PROPERTY_NAME = DEFAULT_VALUE;".toList

def propertyAccessorsTemplate : GdString :=
  "\nCODE_NAMESPACE.RUNTIME_BEHAVIOR_CLASSNAME.prototype.GETTER_NAME = function() \x7b\n    return this._behaviorData.PROPERTY_NAME !== undefined ? this._behaviorData.PROPERTY_NAME : DEFAULT_VALUE;\n\x7d;\nCODE_NAMESPACE.RUNTIME_BEHAVIOR_CLASSNAME.prototype.SETTER_NAME = function(newValue) \x7b\n    this._behaviorData.PROPERTY_NAME = newValue;\n\x7d;".toList

def updatePropertyTemplate : GdString :=
  "\n    if (oldBehaviorData.PROPERTY_NAME !== newBehaviorData.PROPERTY_NAME)\n        this._behaviorData.PROPERTY_NAME = newBehaviorData.PROPERTY_NAME;".toList

def onDestroyShimTemplate : GdString :=
  "\nCODE_NAMESPACE.RUNTIME_BEHAVIOR_CLASSNAME.prototype.onDestroy = function() \x7b\n  // Redirect call to onOwnerRemovedFromScene (the old name of onDestroy)\n  if (this.onOwnerRemovedFromScene) this.onOwnerRemovedFromScene();\n\x7d;".toList

def behaviorTemplate : GdString :=
  "\nCODE_NAMESPACE = CODE_NAMESPACE || \x7b\x7d;\n\n/**\n * Behavior generated from BEHAVIOR_FULL_NAME\n * @class RUNTIME_BEHAVIOR_CLASSNAME\n * @extends gdjs.RuntimeBehavior\n * @constructor\n */\nCODE_NAMESPACE.RUNTIME_BEHAVIOR_CLASSNAME = function(runtimeScene, behaviorData, owner)\n\x7b\n    gdjs.RuntimeBehavior.call(this, runtimeScene, behaviorData, owner);\n    this._runtimeScene = runtimeScene;\n\n    this._behaviorData = \x7b\x7d;\n    INITIALIZE_PROPERTIES_CODE\n\x7d;\n\nCODE_NAMESPACE.RUNTIME_BEHAVIOR_CLASSNAME.prototype = Object.create( gdjs.RuntimeBehavior.prototype );\ngdjs.registerBehavior(\"EXTENSION_NAME::BEHAVIOR_NAME\", CODE_NAMESPACE.RUNTIME_BEHAVIOR_CLASSNAME);\n\n// Hot-reload:\nCODE_NAMESPACE.RUNTIME_BEHAVIOR_CLASSNAME.prototype.updateFromBehaviorData = function(oldBehaviorData, newBehaviorData) \x7b\nUPDATE_FROM_BEHAVIOR_DATA_CODE\n\n    return true;\n\x7d\n\n// Properties:\nPROPERTIES_CODE\n\n// Methods:\nMETHODS_CODE\n".toList

/-- A chain of `FindAndReplace` calls applied in order, as the generator
does. -/
def applyReplacements (s : GdString) (rs : List (GdString × GdString)) : GdString :=
  rs.foldl (fun acc pr => findAndReplace pr.fst pr.snd acc) s

/-- `BehaviorCodeGenerator::GenerateInitializePropertyFromDataCode`. -/
def generateInitializePropertyFromDataCode (p : NamedPropertyDescriptor) : GdString :=
  findAndReplace tokDEFAULT_VALUE (generatePropertyValueCode p)
    (findAndReplace tokPROPERTY_NAME p.name initializePropertyFromDataTemplate)

/-- `BehaviorCodeGenerator::GenerateInitializePropertyFromDefaultValueCode`. -/
def generateInitializePropertyFromDefaultValueCode
    (p : NamedPropertyDescriptor) : GdString :=
  findAndReplace tokDEFAULT_VALUE (generatePropertyValueCode p)
    (findAndReplace tokPROPERTY_NAME p.name initializePropertyFromDefaultValueTemplate)

/-- `Modelled from the spec:` `GetBehaviorPropertyGetterName` is declared in
the header, which is not part of the two source files; the spec says accessor
names are derived deterministically from the property name, for example
`Get<Name>`. -/
def getBehaviorPropertyGetterName (propertyName : GdString) : GdString :=
  "Get".toList ++ propertyName

/-- `Modelled from the spec:` setter counterpart, `Set<Name>`. -/
def getBehaviorPropertySetterName (propertyName : GdString) : GdString :=
  "Set".toList ++ propertyName

/-- `BehaviorCodeGenerator::GenerateRuntimeBehaviorPropertyTemplateCode`: the
accessor pair (getter and setter) generated for one property.  Substitution
order follows the source: PROPERTY_NAME, GETTER_NAME, SETTER_NAME,
DEFAULT_VALUE, RUNTIME_BEHAVIOR_CLASSNAME, CODE_NAMESPACE. -/
def generateRuntimeBehaviorPropertyTemplateCode (beh : EventsBasedBehavior)
    (codeNamespace : GdString) (p : NamedPropertyDescriptor) : GdString :=
  findAndReplace tokCODE_NAMESPACE codeNamespace
    (findAndReplace tokRUNTIME_BEHAVIOR_CLASSNAME beh.name
      (findAndReplace tokDEFAULT_VALUE (generatePropertyValueCode p)
        (findAndReplace tokSETTER_NAME (getBehaviorPropertySetterName p.name)
          (findAndReplace tokGETTER_NAME (getBehaviorPropertyGetterName p.name)
            (findAndReplace tokPROPERTY_NAME p.name propertyAccessorsTemplate)))))

/-- `BehaviorCodeGenerator::GenerateUpdatePropertyFromBehaviorDataCode`. -/
def generateUpdatePropertyFromBehaviorDataCode (_beh : EventsBasedBehavior)
    (_codeNamespace : GdString) (p : NamedPropertyDescriptor) : GdString :=
  findAndReplace tokPROPERTY_NAME p.name updatePropertyTemplate

/-- `GenerateBehaviorOnDestroyToDeprecatedOnOwnerRemovedFromScene`: the
compatibility shim redirecting `onDestroy` to `onOwnerRemovedFromScene`. -/
def generateBehaviorOnDestroyToDeprecatedOnOwnerRemovedFromScene
    (beh : EventsBasedBehavior) (codeNamespace : GdString) : GdString :=
  findAndReplace tokCODE_NAMESPACE codeNamespace
    (findAndReplace tokRUNTIME_BEHAVIOR_CLASSNAME beh.name onDestroyShimTemplate)

/-- Sentinel method name used when the mangled-name map has no entry for an
event function (source line 53). -/
def sentinelFunctionName : GdString :=
  "UNKNOWN_FUNCTION_fix_behaviorMethodMangledNames_please".toList

def strOnOwnerRemovedFromScene : GdString := "onOwnerRemovedFromScene".toList

def strDot : GdString := ".".toList

def strPrototypeDot : GdString := ".prototype.".toList

def strContext : GdString := "Context".toList

/-- The external statement compiler
(`EventsCodeGenerator::GenerateBehaviorEventsFunctionCode`), abstracted over
the arguments the generator derives for it: the event function, the method
code namespace and the fully qualified method name.  (The project handle, the
include-file accumulator and the runtime flag are passed through unchanged by
the generator and are irrelevant to the claims.) -/
abbrev MethodBodyGenerator := EventsFunction → GdString → GdString → GdString

/-- The mangled method name for one event function: the mapped name when the
map has an entry, the sentinel otherwise (source lines 48-53). -/
def mangledOrSentinel (mangledNames : List (GdString × GdString))
    (functionName : GdString) : GdString :=
  (mangledNames.lookup functionName).getD sentinelFunctionName

/-- Body of the per-event-function loop of
`GenerateRuntimeBehaviorCompleteCode` (source lines 46-76): generate the
method via the external statement compiler, then append the legacy shim when
the mangled name is the destroy-lifecycle trigger. -/
def generateBehaviorMethodCode (gen : MethodBodyGenerator)
    (beh : EventsBasedBehavior) (codeNamespace : GdString)
    (mangledNames : List (GdString × GdString)) (fn : EventsFunction) : GdString :=
  let functionName := mangledOrSentinel mangledNames fn.name
  let methodCodeNamespace :=
    codeNamespace ++ strDot ++ beh.name ++ strPrototypeDot ++ functionName ++ strContext
  let methodFullyQualifiedName :=
    codeNamespace ++ strDot ++ beh.name ++ strPrototypeDot ++ functionName
  gen fn methodCodeNamespace methodFullyQualifiedName ++
    (if functionName = strOnOwnerRemovedFromScene then
      generateBehaviorOnDestroyToDeprecatedOnOwnerRemovedFromScene beh codeNamespace
    else [])

/-- The initialization fragment: per-property dispatch on the hidden flag
(source lines 22-31). -/
def generateInitializePropertiesCode (beh : EventsBasedBehavior) : GdString :=
  (beh.propertyDescriptors.map fun p =>
    if p.hidden then generateInitializePropertyFromDefaultValueCode p
    else generateInitializePropertyFromDataCode p).flatten

/-- The accessors fragment: one accessor pair per property, with no test on
the hidden flag (source lines 33-43). -/
def generatePropertiesCode (beh : EventsBasedBehavior)
    (codeNamespace : GdString) : GdString :=
  (beh.propertyDescriptors.map
    (generateRuntimeBehaviorPropertyTemplateCode beh codeNamespace)).flatten

/-- The hot-reload fragment (source lines 80-89). -/
def generateUpdateFromBehaviorDataCode (beh : EventsBasedBehavior)
    (codeNamespace : GdString) : GdString :=
  (beh.propertyDescriptors.map
    (generateUpdatePropertyFromBehaviorDataCode beh codeNamespace)).flatten

/-- The methods fragment (source lines 44-79). -/
def generateMethodsCode (gen : MethodBodyGenerator) (beh : EventsBasedBehavior)
    (codeNamespace : GdString)
    (mangledNames : List (GdString × GdString)) : GdString :=
  (beh.eventsFunctions.map
    (generateBehaviorMethodCode gen beh codeNamespace mangledNames)).flatten

/-- `BehaviorCodeGenerator::GenerateRuntimeBehaviorTemplateCode`: the module
skeleton rendered by the chain of `FindAndReplace` calls, in source order
(lines 135-145). -/
def generateRuntimeBehaviorTemplateCode (extensionName : GdString)
    (beh : EventsBasedBehavior) (codeNamespace : GdString)
    (initializePropertiesCode methodsCode propertiesCode
      updateFromBehaviorDataCode : GdString) : GdString :=
  findAndReplace tokMETHODS_CODE methodsCode
    (findAndReplace tokPROPERTIES_CODE propertiesCode
      (findAndReplace tokUPDATE_FROM_BEHAVIOR_DATA_CODE updateFromBehaviorDataCode
        (findAndReplace tokINITIALIZE_PROPERTIES_CODE initializePropertiesCode
          (findAndReplace tokCODE_NAMESPACE codeNamespace
            (findAndReplace tokRUNTIME_BEHAVIOR_CLASSNAME beh.name
              (findAndReplace tokBEHAVIOR_FULL_NAME beh.fullName
                (findAndReplace tokBEHAVIOR_NAME beh.name
                  (findAndReplace tokEXTENSION_NAME extensionName
                    behaviorTemplate))))))))

/-- `BehaviorCodeGenerator::GenerateRuntimeBehaviorCompleteCode`: the complete
generated module for one behavior.  The call site (source lines 17-90) passes
its four lambdas positionally — initialization (21-32), accessors (33-43),
event methods (44-79), hot-reload (80-90) — against the parameter list
`(generateInitializePropertiesCode, generateMethodsCode,
generatePropertiesCode, generateUpdateFromBehaviorDataCode)` of lines 97-100,
so the accessors fold is bound to the `generateMethodsCode` parameter and
ends up in the `METHODS_CODE` slot, while the event-methods fold is bound to
`generatePropertiesCode` and ends up in the `PROPERTIES_CODE` slot. -/
def generateRuntimeBehaviorCompleteCode (gen : MethodBodyGenerator)
    (extensionName : GdString) (beh : EventsBasedBehavior)
    (codeNamespace : GdString)
    (mangledNames : List (GdString × GdString)) : GdString :=
  generateRuntimeBehaviorTemplateCode extensionName beh codeNamespace
    (generateInitializePropertiesCode beh)
    (generatePropertiesCode beh codeNamespace)
    (generateMethodsCode gen beh codeNamespace mangledNames)
    (generateUpdateFromBehaviorDataCode beh codeNamespace)

/-! ## Data model of the export helper (`GDJS/IDE/ExporterHelper.cpp`) -/

/-- `InsertUnique` (source lines 34-37): append the path to the include list
only when it is not already present. -/
def insertUnique (container : List GdString) (str : GdString) : List GdString :=
  if str ∈ container then container else container ++ [ str ]

def markerPixiRenderer : GdString := "pixi-renderer".toList

def markerPixiFilter : GdString := "pixi-filter".toList

def markerCocosRenderer : GdString := "cocos-renderer".toList

def markerCocosShader : GdString := "cocos-shader".toList

/-- Exclusion predicate of the pixi removal pass of `RemoveIncludes` (source
lines 575-583). -/
def matchesPixiExclusion (includeFile : GdString) : Bool :=
  occurs markerPixiRenderer includeFile || occurs markerPixiFilter includeFile

/-- Exclusion predicate of the cocos removal pass of `RemoveIncludes` (source
lines 585-594). -/
def matchesCocosExclusion (includeFile : GdString) : Bool :=
  occurs markerCocosRenderer includeFile || occurs markerCocosShader includeFile

/-- One erase loop of `RemoveIncludes`: walk the list with an index, erasing
every matching element in place and keeping the rest in order. -/
def erasePass (p : GdString → Bool) : List GdString → List GdString
  | [] => []
  | f :: rest => if p f then erasePass p rest else f :: erasePass p rest

/-- `ExporterHelper::RemoveIncludes` (source lines 572-595): when a
renderer-removal flag is set, remove every include path containing one of
that renderer's exclusion markers; pixi pass first, then cocos pass. -/
def removeIncludes (pixiRenderers cocosRenderers : Bool)
    (includesFiles : List GdString) : List GdString :=
  let afterPixi :=
    if pixiRenderers then erasePass matchesPixiExclusion includesFiles
    else includesFiles
  if cocosRenderers then erasePass matchesCocosExclusion afterPixi
  else afterPixi

/-- Unconditional include manifest of `AddLibsInclude` (source lines 487-522),
in source order. -/
def commonIncludeFiles : List GdString :=
  [ "libs/jshashtable.js".toList, "gd.js".toList, "gd-splash-image.js".toList,
    "libs/hshg.js".toList, "libs/rbush.js".toList, "inputmanager.js".toList,
    "jsonmanager.js".toList, "timemanager.js".toList, "runtimeobject.js".toList,
    "profiler.js".toList, "runtimescene.js".toList, "scenestack.js".toList,
    "polygon.js".toList, "force.js".toList, "layer.js".toList, "timer.js".toList,
    "runtimegame.js".toList, "variable.js".toList, "variablescontainer.js".toList,
    "oncetriggers.js".toList, "runtimebehavior.js".toList,
    "spriteruntimeobject.js".toList, "events-tools/commontools.js".toList,
    "events-tools/runtimescenetools.js".toList, "events-tools/inputtools.js".toList,
    "events-tools/objecttools.js".toList, "events-tools/cameratools.js".toList,
    "events-tools/soundtools.js".toList, "events-tools/storagetools.js".toList,
    "events-tools/stringtools.js".toList, "events-tools/windowtools.js".toList,
    "events-tools/networktools.js".toList ]

/-- Debug-bridge manifest of `AddLibsInclude` (source lines 524-528). -/
def websocketDebuggerClientIncludeFiles : List GdString :=
  [ "websocket-debugger-client/hot-reloader.js".toList,
    "websocket-debugger-client/websocket-debugger-client.js".toList ]

/-- Pixi renderer manifest of `AddLibsInclude` (source lines 530-548). -/
def pixiIncludeFiles : List GdString :=
  [ "pixi-renderers/pixi.js".toList,
    "pixi-renderers/pixi-filters-tools.js".toList,
    "pixi-renderers/runtimegame-pixi-renderer.js".toList,
    "pixi-renderers/runtimescene-pixi-renderer.js".toList,
    "pixi-renderers/layer-pixi-renderer.js".toList,
    "pixi-renderers/pixi-image-manager.js".toList,
    "pixi-renderers/spriteruntimeobject-pixi-renderer.js".toList,
    "pixi-renderers/loadingscreen-pixi-renderer.js".toList,
    "howler-sound-manager/howler.min.js".toList,
    "howler-sound-manager/howler-sound-manager.js".toList,
    "fontfaceobserver-font-manager/fontfaceobserver.js".toList,
    "fontfaceobserver-font-manager/fontfaceobserver-font-manager.js".toList ]

/-- Cocos renderer manifest of `AddLibsInclude` (source lines 550-569). -/
def cocosIncludeFiles : List GdString :=
  [ "cocos-renderers/cocos-director-manager.js".toList,
    "cocos-renderers/cocos-image-manager.js".toList,
    "cocos-renderers/cocos-tools.js".toList,
    "cocos-renderers/layer-cocos-renderer.js".toList,
    "cocos-renderers/loadingscreen-cocos-renderer.js".toList,
    "cocos-renderers/runtimegame-cocos-renderer.js".toList,
    "cocos-renderers/runtimescene-cocos-renderer.js".toList,
    "cocos-renderers/spriteruntimeobject-cocos-renderer.js".toList,
    "cocos-sound-manager/cocos-sound-manager.js".toList,
    "fontfaceobserver-font-manager/fontfaceobserver.js".toList,
    "fontfaceobserver-font-manager/fontfaceobserver-font-manager.js".toList ]

/-- `ExporterHelper::AddLibsInclude` (source lines 483-570): a fixed sequence
of `InsertUnique` calls, gated by the feature flags, in source order. -/
def addLibsInclude (pixiRenderers cocosRenderers websocketDebuggerClient : Bool)
    (includesFiles : List GdString) : List GdString :=
  (commonIncludeFiles ++
    (if websocketDebuggerClient then websocketDebuggerClientIncludeFiles else []) ++
    (if pixiRenderers then pixiIncludeFiles else []) ++
    (if cocosRenderers then cocosIncludeFiles else [])).foldl insertUnique includesFiles

/-- `ExporterHelper::ExportEffectIncludes` (source lines 597-607): every
effect include file is inserted into the include list. -/
def exportEffectIncludes (effectIncludes : List GdString)
    (includesFiles : List GdString) : List GdString :=
  effectIncludes.foldl insertUnique includesFiles

/-- What one layout contributes to the include list in `ExportEventsCode`
(source lines 615-633): the includes reported by the layout code generator and
the name of the written code file. -/
structure LayoutCodeGenResult : Type where
  eventsIncludes : List GdString
  filename : GdString

/-- `ExporterHelper::ExportEventsCode` include-list effect: for each layout in
order, insert its event includes and then its generated code filename. -/
def exportEventsCode (layouts : List LayoutCodeGenResult)
    (includesFiles : List GdString) : List GdString :=
  layouts.foldl
    (fun acc l => insertUnique (l.eventsIncludes.foldl insertUnique acc) l.filename)
    includesFiles

/-- `ExporterHelper::ExportExternalSourceFiles` include-list effect (source
lines 638-659): the output name of each exported JavaScript source file is
inserted. -/
def exportExternalSourceFiles (sourceOutputFiles : List GdString)
    (includesFiles : List GdString) : List GdString :=
  sourceOutputFiles.foldl insertUnique includesFiles

/-- One `scriptFile` child of the runtime options document: path attribute
and hash attribute. -/
structure ScriptFileEntry : Type where
  path : GdString
  hash : Int
deriving DecidableEq

/-- The `runtimeGameOptions` document built by `ExportProjectForPixiPreview`
(source lines 95-112): preview flag, optional injected external layout child,
and one scriptFile entry per include file. -/
structure RuntimeGameOptions : Type where
  isPreview : Bool
  injectExternalLayout : Option GdString
  scriptFiles : List ScriptFileEntry

/-- The fields of `PreviewExportOptions` relevant to the runtime options
document. -/
structure PreviewExportOptions : Type where
  layoutName : GdString
  externalLayoutName : GdString
  includeFileHashes : List (GdString × Int)

/-- Assembly of the runtime options document (source lines 95-112): the
`injectExternalLayout` child is added only for a nonempty external layout
name; each include file yields one scriptFile child whose hash is looked up
in the options map, defaulting to 0. -/
def buildRuntimeGameOptions (options : PreviewExportOptions)
    (includesFiles : List GdString) : RuntimeGameOptions :=
  { isPreview := true
    injectExternalLayout :=
      if options.externalLayoutName.isEmpty then none
      else some options.externalLayoutName
    scriptFiles := includesFiles.map fun f =>
      { path := f, hash := (options.includeFileHashes.lookup f).getD 0 } }

/-- The include-list state of `ExportProjectForPixiPreview` at the point the
runtime options document is built (source lines 44-93): engine libraries for
pixi with the websocket debug bridge, then effect includes, then per-layout
generated code, then external sources, and finally the cocos removal pass
`RemoveIncludes(false, true, ...)` — all before `runtimeGameOptions` is
assembled. -/
def previewIncludesFiles (effectIncludes : List GdString)
    (layouts : List LayoutCodeGenResult)
    (sourceOutputFiles : List GdString) : List GdString :=
  removeIncludes false true
    (exportExternalSourceFiles sourceOutputFiles
      (exportEventsCode layouts
        (exportEffectIncludes effectIncludes
          (addLibsInclude true false true []))))

/-- The runtime options document of one pixi preview export run. -/
def previewRuntimeGameOptions (options : PreviewExportOptions)
    (effectIncludes : List GdString) (layouts : List LayoutCodeGenResult)
    (sourceOutputFiles : List GdString) : RuntimeGameOptions :=
  buildRuntimeGameOptions options
    (previewIncludesFiles effectIncludes layouts sourceOutputFiles)

/-- Iterated insertion of the same path. -/
def insertTimes (container : List GdString) (str : GdString) : Nat → List GdString
  | 0 => container
  | n + 1 => insertUnique (insertTimes container str n) str

/-! Concrete segments of the generator templates, used to state what the
rendered fragments look like.  Each is a verbatim slice of a template. -/

def segInitA : GdString := "\n    this._behaviorData.".toList

def segInitB : GdString := " = behaviorData.".toList

def segInitC : GdString := " !== undefined ? behaviorData.".toList

def segInitD : GdString := " : ".toList

def segInitE : GdString := ";".toList

def segInitF : GdString := " = ".toList

/-- A reference to the external input-data map: the identifier
`behaviorData.` preceded by a space (as in `= behaviorData.x` or
`? behaviorData.x`); the internal state slot always appears as
`this._behaviorData.` with an underscore, never with a space, before
`behaviorData`. -/
def behaviorDataRefMarker : GdString := " behaviorData.".toList

/-- Getter-specific slice of the accessor template: everything from the
parameter list of the getter function to the read of the stored slot. -/
def getterMarker : GdString :=
  "function() \x7b\n    return this._behaviorData.".toList

/-- Setter-specific slice of the accessor template. -/
def setterMarker : GdString :=
  "function(newValue) \x7b\n    this._behaviorData.".toList

def segAccDot : GdString := ".".toList

def segAccProto : GdString := ".prototype.".toList

def segAccNl : GdString := "\n".toList

def segAccEq : GdString := " = ".toList

def segAccUndef : GdString := " !== undefined ? this._behaviorData.".toList

def segAccColon : GdString := " : ".toList

def segAccMid : GdString := ";\n\x7d;\n".toList

def segAccSet : GdString := " = newValue;\n\x7d;".toList

def segAccGetOpen : GdString :=
  " = function() \x7b\n    return this._behaviorData.".toList

def segAccSetOpen : GdString :=
  " = function(newValue) \x7b\n    this._behaviorData.".toList

def segUpdA : GdString := "\n    if (oldBehaviorData.".toList

def segUpdB : GdString := " !== newBehaviorData.".toList

def segUpdC : GdString := ")\n        this._behaviorData.".toList

def segUpdD : GdString := " = newBehaviorData.".toList

/-- Tail of the compatibility-shim template after the class name. -/
def segShimTail : GdString :=
  ".prototype.onDestroy = function() \x7b\n  // Redirect call to onOwnerRemovedFromScene (the old name of onDestroy)\n  if (this.onOwnerRemovedFromScene) this.onOwnerRemovedFromScene();\n\x7d;".toList

/-! Concrete atoms of the behavior module skeleton, in template order. -/

def skH2 : GdString := " = ".toList

def skH3 : GdString := " || \x7b\x7d;\n\n/**\n * Behavior generated from ".toList

def skG1 : GdString := "\n * @class ".toList

def skH4 : GdString :=
  "\n * @extends gdjs.RuntimeBehavior\n * @constructor\n */\n".toList

def skI1 : GdString :=
  " = function(runtimeScene, behaviorData, owner)\n\x7b\n    gdjs.RuntimeBehavior.call(this, runtimeScene, behaviorData, owner);\n    this._runtimeScene = runtimeScene;\n\n    this._behaviorData = \x7b\x7d;\n    ".toList

def skI2 : GdString := "\n\x7d;\n\n".toList

def skG4 : GdString :=
  ".prototype = Object.create( gdjs.RuntimeBehavior.prototype );\ngdjs.registerBehavior(\"".toList

def skSep : GdString := "::".toList

def skH8 : GdString := "\", ".toList

def skH10 : GdString := ");\n\n// Hot-reload:\n".toList

def skJ1 : GdString :=
  ".prototype.updateFromBehaviorData = function(oldBehaviorData, newBehaviorData) \x7b\n".toList

def skK1 : GdString := "\n\n    return true;\n\x7d\n\n// Properties:\n".toList

def skL1 : GdString := "\n\n// Methods:\n".toList

/-! Sample values used by the concrete witnesses. -/

def sampleGen : MethodBodyGenerator := fun _ _ _ => "\n// method body\n".toList

def sampleSpeedProperty : NamedPropertyDescriptor :=
  { name := "speed".toList, type := "Number".toList, value := "10".toList,
    hidden := true }

def sampleLabelProperty : NamedPropertyDescriptor :=
  { name := "label".toList, type := "String".toList, value := "hello".toList,
    hidden := false }

def sampleBehavior : EventsBasedBehavior :=
  { name := "MyBehavior".toList, fullName := "My behavior".toList,
    propertyDescriptors := [ sampleSpeedProperty, sampleLabelProperty ],
    eventsFunctions := [ { name := "destroyFn".toList } ] }

def sampleNamespace : GdString := "gdjs.behaviorExt".toList

def sampleMangledNames : List (GdString × GdString) :=
  [ ( "destroyFn".toList, "onOwnerRemovedFromScene".toList) ]

/-- The accessor template split at its placeholder tokens. -/
def accessorPieces : List Piece :=
  [ Piece.lit segAccNl, Piece.lit tokCODE_NAMESPACE, Piece.lit segAccDot,
    Piece.lit tokRUNTIME_BEHAVIOR_CLASSNAME, Piece.lit segAccProto,
    Piece.lit tokGETTER_NAME, Piece.lit segAccGetOpen,
    Piece.lit tokPROPERTY_NAME, Piece.lit segAccUndef,
    Piece.lit tokPROPERTY_NAME, Piece.lit segAccColon,
    Piece.lit tokDEFAULT_VALUE, Piece.lit segAccMid,
    Piece.lit tokCODE_NAMESPACE, Piece.lit segAccDot,
    Piece.lit tokRUNTIME_BEHAVIOR_CLASSNAME, Piece.lit segAccProto,
    Piece.lit tokSETTER_NAME, Piece.lit segAccSetOpen,
    Piece.lit tokPROPERTY_NAME, Piece.lit segAccSet ]

/-! Intermediate piece lists of the module skeleton, one per substitution
pass.  Adjacent concrete text is merged so that every piece can be skipped
whole by that pass; each pass isolates exactly its own token. -/

def modPieces1 : List Piece :=
  [ Piece.lit (segAccNl ++ tokCODE_NAMESPACE ++ skH2 ++ tokCODE_NAMESPACE
      ++ skH3 ++ tokBEHAVIOR_FULL_NAME ++ skG1 ++ tokRUNTIME_BEHAVIOR_CLASSNAME
      ++ skH4 ++ tokCODE_NAMESPACE ++ segAccDot ++ tokRUNTIME_BEHAVIOR_CLASSNAME
      ++ skI1 ++ tokINITIALIZE_PROPERTIES_CODE ++ skI2 ++ tokCODE_NAMESPACE
      ++ segAccDot ++ tokRUNTIME_BEHAVIOR_CLASSNAME ++ skG4),
    Piece.lit tokEXTENSION_NAME,
    Piece.lit (skSep ++ tokBEHAVIOR_NAME ++ skH8 ++ tokCODE_NAMESPACE
      ++ segAccDot ++ tokRUNTIME_BEHAVIOR_CLASSNAME ++ skH10 ++ tokCODE_NAMESPACE
      ++ segAccDot ++ tokRUNTIME_BEHAVIOR_CLASSNAME ++ skJ1
      ++ tokUPDATE_FROM_BEHAVIOR_DATA_CODE ++ skK1 ++ tokPROPERTIES_CODE
      ++ skL1 ++ tokMETHODS_CODE ++ segAccNl) ]

def modPieces2 (extName : GdString) : List Piece :=
  [ Piece.lit (segAccNl ++ tokCODE_NAMESPACE ++ skH2 ++ tokCODE_NAMESPACE
      ++ skH3 ++ tokBEHAVIOR_FULL_NAME ++ skG1 ++ tokRUNTIME_BEHAVIOR_CLASSNAME
      ++ skH4 ++ tokCODE_NAMESPACE ++ segAccDot ++ tokRUNTIME_BEHAVIOR_CLASSNAME
      ++ skI1 ++ tokINITIALIZE_PROPERTIES_CODE ++ skI2 ++ tokCODE_NAMESPACE
      ++ segAccDot ++ tokRUNTIME_BEHAVIOR_CLASSNAME ++ skG4),
    Piece.hole extName,
    Piece.lit skSep, Piece.lit tokBEHAVIOR_NAME,
    Piece.lit (skH8 ++ tokCODE_NAMESPACE ++ segAccDot
      ++ tokRUNTIME_BEHAVIOR_CLASSNAME ++ skH10 ++ tokCODE_NAMESPACE
      ++ segAccDot ++ tokRUNTIME_BEHAVIOR_CLASSNAME ++ skJ1
      ++ tokUPDATE_FROM_BEHAVIOR_DATA_CODE ++ skK1 ++ tokPROPERTIES_CODE
      ++ skL1 ++ tokMETHODS_CODE ++ segAccNl) ]

def modPieces3 (extName behName : GdString) : List Piece :=
  [ Piece.lit (segAccNl ++ tokCODE_NAMESPACE ++ skH2 ++ tokCODE_NAMESPACE ++ skH3),
    Piece.lit tokBEHAVIOR_FULL_NAME,
    Piece.lit (skG1 ++ tokRUNTIME_BEHAVIOR_CLASSNAME ++ skH4
      ++ tokCODE_NAMESPACE ++ segAccDot ++ tokRUNTIME_BEHAVIOR_CLASSNAME
      ++ skI1 ++ tokINITIALIZE_PROPERTIES_CODE ++ skI2 ++ tokCODE_NAMESPACE
      ++ segAccDot ++ tokRUNTIME_BEHAVIOR_CLASSNAME ++ skG4),
    Piece.hole extName, Piece.lit skSep, Piece.hole behName,
    Piece.lit (skH8 ++ tokCODE_NAMESPACE ++ segAccDot
      ++ tokRUNTIME_BEHAVIOR_CLASSNAME ++ skH10 ++ tokCODE_NAMESPACE
      ++ segAccDot ++ tokRUNTIME_BEHAVIOR_CLASSNAME ++ skJ1
      ++ tokUPDATE_FROM_BEHAVIOR_DATA_CODE ++ skK1 ++ tokPROPERTIES_CODE
      ++ skL1 ++ tokMETHODS_CODE ++ segAccNl) ]

def modPieces4 (extName behName fullName : GdString) : List Piece :=
  [ Piece.lit (segAccNl ++ tokCODE_NAMESPACE ++ skH2 ++ tokCODE_NAMESPACE ++ skH3),
    Piece.hole fullName,
    Piece.lit skG1, Piece.lit tokRUNTIME_BEHAVIOR_CLASSNAME,
    Piece.lit (skH4 ++ tokCODE_NAMESPACE ++ segAccDot),
    Piece.lit tokRUNTIME_BEHAVIOR_CLASSNAME,
    Piece.lit (skI1 ++ tokINITIALIZE_PROPERTIES_CODE ++ skI2
      ++ tokCODE_NAMESPACE ++ segAccDot),
    Piece.lit tokRUNTIME_BEHAVIOR_CLASSNAME,
    Piece.lit skG4, Piece.hole extName, Piece.lit skSep, Piece.hole behName,
    Piece.lit (skH8 ++ tokCODE_NAMESPACE ++ segAccDot),
    Piece.lit tokRUNTIME_BEHAVIOR_CLASSNAME,
    Piece.lit (skH10 ++ tokCODE_NAMESPACE ++ segAccDot),
    Piece.lit tokRUNTIME_BEHAVIOR_CLASSNAME,
    Piece.lit (skJ1 ++ tokUPDATE_FROM_BEHAVIOR_DATA_CODE ++ skK1
      ++ tokPROPERTIES_CODE ++ skL1 ++ tokMETHODS_CODE ++ segAccNl) ]

def modPieces5 (extName behName fullName : GdString) : List Piece :=
  [ Piece.lit segAccNl, Piece.lit tokCODE_NAMESPACE, Piece.lit skH2,
    Piece.lit tokCODE_NAMESPACE, Piece.lit skH3,
    Piece.hole fullName, Piece.lit skG1, Piece.hole behName,
    Piece.lit skH4, Piece.lit tokCODE_NAMESPACE, Piece.lit segAccDot,
    Piece.hole behName,
    Piece.lit (skI1 ++ tokINITIALIZE_PROPERTIES_CODE ++ skI2),
    Piece.lit tokCODE_NAMESPACE, Piece.lit segAccDot, Piece.hole behName,
    Piece.lit skG4, Piece.hole extName, Piece.lit skSep, Piece.hole behName,
    Piece.lit skH8, Piece.lit tokCODE_NAMESPACE, Piece.lit segAccDot,
    Piece.hole behName,
    Piece.lit skH10, Piece.lit tokCODE_NAMESPACE, Piece.lit segAccDot,
    Piece.hole behName,
    Piece.lit (skJ1 ++ tokUPDATE_FROM_BEHAVIOR_DATA_CODE ++ skK1
      ++ tokPROPERTIES_CODE ++ skL1 ++ tokMETHODS_CODE ++ segAccNl) ]

def modPieces6 (extName behName fullName ns : GdString) : List Piece :=
  [ Piece.lit segAccNl, Piece.hole ns, Piece.lit skH2, Piece.hole ns,
    Piece.lit skH3, Piece.hole fullName, Piece.lit skG1, Piece.hole behName,
    Piece.lit skH4, Piece.hole ns, Piece.lit segAccDot, Piece.hole behName,
    Piece.lit skI1, Piece.lit tokINITIALIZE_PROPERTIES_CODE, Piece.lit skI2,
    Piece.hole ns, Piece.lit segAccDot, Piece.hole behName,
    Piece.lit skG4, Piece.hole extName, Piece.lit skSep, Piece.hole behName,
    Piece.lit skH8, Piece.hole ns, Piece.lit segAccDot, Piece.hole behName,
    Piece.lit skH10, Piece.hole ns, Piece.lit segAccDot, Piece.hole behName,
    Piece.lit (skJ1 ++ tokUPDATE_FROM_BEHAVIOR_DATA_CODE ++ skK1
      ++ tokPROPERTIES_CODE ++ skL1 ++ tokMETHODS_CODE ++ segAccNl) ]

def modPieces7 (extName behName fullName ns initCode : GdString) : List Piece :=
  [ Piece.lit segAccNl, Piece.hole ns, Piece.lit skH2, Piece.hole ns,
    Piece.lit skH3, Piece.hole fullName, Piece.lit skG1, Piece.hole behName,
    Piece.lit skH4, Piece.hole ns, Piece.lit segAccDot, Piece.hole behName,
    Piece.lit skI1, Piece.hole initCode, Piece.lit skI2,
    Piece.hole ns, Piece.lit segAccDot, Piece.hole behName,
    Piece.lit skG4, Piece.hole extName, Piece.lit skSep, Piece.hole behName,
    Piece.lit skH8, Piece.hole ns, Piece.lit segAccDot, Piece.hole behName,
    Piece.lit skH10, Piece.hole ns, Piece.lit segAccDot, Piece.hole behName,
    Piece.lit skJ1, Piece.lit tokUPDATE_FROM_BEHAVIOR_DATA_CODE,
    Piece.lit (skK1 ++ tokPROPERTIES_CODE ++ skL1 ++ tokMETHODS_CODE
      ++ segAccNl) ]

def modPieces8 (extName behName fullName ns initCode updateCode : GdString) :
    List Piece :=
  [ Piece.lit segAccNl, Piece.hole ns, Piece.lit skH2, Piece.hole ns,
    Piece.lit skH3, Piece.hole fullName, Piece.lit skG1, Piece.hole behName,
    Piece.lit skH4, Piece.hole ns, Piece.lit segAccDot, Piece.hole behName,
    Piece.lit skI1, Piece.hole initCode, Piece.lit skI2,
    Piece.hole ns, Piece.lit segAccDot, Piece.hole behName,
    Piece.lit skG4, Piece.hole extName, Piece.lit skSep, Piece.hole behName,
    Piece.lit skH8, Piece.hole ns, Piece.lit segAccDot, Piece.hole behName,
    Piece.lit skH10, Piece.hole ns, Piece.lit segAccDot, Piece.hole behName,
    Piece.lit skJ1, Piece.hole updateCode, Piece.lit skK1,
    Piece.lit tokPROPERTIES_CODE,
    Piece.lit (skL1 ++ tokMETHODS_CODE ++ segAccNl) ]

def modPieces9 (extName behName fullName ns initCode updateCode
    propsCode : GdString) : List Piece :=
  [ Piece.lit segAccNl, Piece.hole ns, Piece.lit skH2, Piece.hole ns,
    Piece.lit skH3, Piece.hole fullName, Piece.lit skG1, Piece.hole behName,
    Piece.lit skH4, Piece.hole ns, Piece.lit segAccDot, Piece.hole behName,
    Piece.lit skI1, Piece.hole initCode, Piece.lit skI2,
    Piece.hole ns, Piece.lit segAccDot, Piece.hole behName,
    Piece.lit skG4, Piece.hole extName, Piece.lit skSep, Piece.hole behName,
    Piece.lit skH8, Piece.hole ns, Piece.lit segAccDot, Piece.hole behName,
    Piece.lit skH10, Piece.hole ns, Piece.lit segAccDot, Piece.hole behName,
    Piece.lit skJ1, Piece.hole updateCode, Piece.lit skK1,
    Piece.hole propsCode, Piece.lit skL1, Piece.lit tokMETHODS_CODE,
    Piece.lit segAccNl ]

/-- The fully substituted module skeleton: concrete skeleton atoms around the
substituted names and the four generated code fragments. -/
def moduleFinalPieces (extName behName fullName ns initCode updateCode
    propsCode methodsCode : GdString) : List Piece :=
  [ Piece.lit segAccNl, Piece.hole ns, Piece.lit skH2, Piece.hole ns,
    Piece.lit skH3, Piece.hole fullName, Piece.lit skG1, Piece.hole behName,
    Piece.lit skH4, Piece.hole ns, Piece.lit segAccDot, Piece.hole behName,
    Piece.lit skI1, Piece.hole initCode, Piece.lit skI2,
    Piece.hole ns, Piece.lit segAccDot, Piece.hole behName,
    Piece.lit skG4, Piece.hole extName, Piece.lit skSep, Piece.hole behName,
    Piece.lit skH8, Piece.hole ns, Piece.lit segAccDot, Piece.hole behName,
    Piece.lit skH10, Piece.hole ns, Piece.lit segAccDot, Piece.hole behName,
    Piece.lit skJ1, Piece.hole updateCode, Piece.lit skK1,
    Piece.hole propsCode, Piece.lit skL1, Piece.hole methodsCode,
    Piece.lit segAccNl ]

/-- The final module pieces strictly before the `METHODS_CODE` slot, which is
where the accessors fragment lands (the `PROPERTIES_CODE` slot, holding the
event-methods fragment, is part of this front). -/
def moduleFrontPieces (extName behName fullName ns initCode updateCode
    propsSlotCode : GdString) : List Piece :=
  [ Piece.lit segAccNl, Piece.hole ns, Piece.lit skH2, Piece.hole ns,
    Piece.lit skH3, Piece.hole fullName, Piece.lit skG1, Piece.hole behName,
    Piece.lit skH4, Piece.hole ns, Piece.lit segAccDot, Piece.hole behName,
    Piece.lit skI1, Piece.hole initCode, Piece.lit skI2,
    Piece.hole ns, Piece.lit segAccDot, Piece.hole behName,
    Piece.lit skG4, Piece.hole extName, Piece.lit skSep, Piece.hole behName,
    Piece.lit skH8, Piece.hole ns, Piece.lit segAccDot, Piece.hole behName,
    Piece.lit skH10, Piece.hole ns, Piece.lit segAccDot, Piece.hole behName,
    Piece.lit skJ1, Piece.hole updateCode, Piece.lit skK1,
    Piece.hole propsSlotCode, Piece.lit skL1 ]

/-- The final module pieces strictly after the `METHODS_CODE` slot. -/
def moduleTailPieces : List Piece :=
  [ Piece.lit segAccNl ]

/-- The accessor pair for one property with the getter and setter markers
isolated, used to count accessor pairs in the final module. -/
def accessorCountPieces (beh : EventsBasedBehavior) (ns : GdString)
    (p : NamedPropertyDescriptor) : List Piece :=
  [ Piece.lit segAccNl, Piece.hole ns, Piece.lit segAccDot,
    Piece.hole beh.name, Piece.lit segAccProto,
    Piece.hole (getBehaviorPropertyGetterName p.name),
    Piece.lit skH2, Piece.lit getterMarker, Piece.hole p.name,
    Piece.lit segAccUndef, Piece.hole p.name, Piece.lit segAccColon,
    Piece.hole (generatePropertyValueCode p), Piece.lit segAccMid,
    Piece.hole ns, Piece.lit segAccDot, Piece.hole beh.name,
    Piece.lit segAccProto,
    Piece.hole (getBehaviorPropertySetterName p.name),
    Piece.lit skH2, Piece.lit setterMarker, Piece.hole p.name,
    Piece.lit segAccSet ]

/-- All placeholder tokens of the generator plus the accessor markers: a
value is clean for code generation when it neither contains nor overlaps any
of them.  Ordinary identifiers and rendered default values satisfy this. -/
def criticalTokens : List GdString :=
  [ tokEXTENSION_NAME, tokBEHAVIOR_NAME, tokBEHAVIOR_FULL_NAME,
    tokRUNTIME_BEHAVIOR_CLASSNAME, tokCODE_NAMESPACE,
    tokINITIALIZE_PROPERTIES_CODE, tokUPDATE_FROM_BEHAVIOR_DATA_CODE,
    tokPROPERTIES_CODE, tokMETHODS_CODE, tokPROPERTY_NAME, tokGETTER_NAME,
    tokSETTER_NAME, tokDEFAULT_VALUE, getterMarker, setterMarker ]

/-- A string that the substitution passes and the accessor counting can
always skip: overlap-free for every critical token. -/
def cleanForCodegen (s : GdString) : Bool :=
  criticalTokens.all fun t => overlapFree t s

/-! ## Theorems -/

/-! ### C7: the include set builder -/

theorem mem_insertUnique_self (c : List GdString) (s : GdString) :
    s ∈ insertUnique c s := by
  unfold insertUnique
  by_cases h : s ∈ c
  · simp [h]
  · simp [h]

theorem countP_eq_one_of_nodup_mem {c : List GdString} {s : GdString}
    (hnd : c.Nodup) (h : s ∈ c) :
    c.countP (fun t => decide (t = s)) = 1 := by
  induction c with
  | nil => cases h
  | cons x c ih =>
    rcases List.mem_cons.mp h with rfl | h2
    · have hz : c.countP (fun t => decide (t = s)) = 0 :=
        List.countP_eq_zero.mpr (fun t ht => by
          have hne : t ≠ s := fun he => (List.nodup_cons.mp hnd).1 (he ▸ ht)
          simp [hne])
      simp [List.countP_cons, hz]
    · have hx : x ≠ s := fun he => (List.nodup_cons.mp hnd).1 (he ▸ h2)
      simp [List.countP_cons, hx, ih (List.nodup_cons.mp hnd).2 h2]

theorem insertUnique_of_mem {c : List GdString} {s : GdString} (h : s ∈ c) :
    insertUnique c s = c := by
  simp [insertUnique, h]

/-- C7: inserting a path already present is a no-op, inserting an absent path
appends it at the end; inserting the same path any positive number of times
equals inserting it once (so it ends up exactly once, where the first
insertion put it); a duplicate-free list stays duplicate-free under any
further sequence of insertions. -/
theorem insertUnique_spec (c : List GdString) (s : GdString) (hnd : c.Nodup) :
    (s ∈ c → insertUnique c s = c) ∧
    (s ∉ c → insertUnique c s = c ++ [ s ]) ∧
    (∀ n : Nat, insertTimes c s (n + 1) = insertUnique c s) ∧
    (insertUnique c s).countP (fun t => decide (t = s)) = 1 ∧
    (∀ later : List GdString, (later.foldl insertUnique c).Nodup) := by
  refine ⟨fun h => insertUnique_of_mem h, fun h => by simp [insertUnique, h], ?_, ?_, ?_⟩
  · intro n
    induction n with
    | zero => rfl
    | succ n ih =>
      show insertUnique (insertTimes c s (n + 1)) s = insertUnique c s
      rw [ih]
      exact insertUnique_of_mem (mem_insertUnique_self c s)
  · by_cases h : s ∈ c
    · rw [insertUnique_of_mem h]
      exact countP_eq_one_of_nodup_mem hnd h
    · have hz : c.countP (fun t => decide (t = s)) = 0 :=
        List.countP_eq_zero.mpr (fun t ht => by
          have hne : t ≠ s := fun he => h (he ▸ ht)
          simp [hne])
      simp [insertUnique, h, List.countP_append, hz]
  · have one : ∀ c2 : List GdString, c2.Nodup → ∀ s2, (insertUnique c2 s2).Nodup := by
      intro c2 h2 s2
      unfold insertUnique
      by_cases h : s2 ∈ c2
      · simpa [h]
      · simpa [h] using List.Nodup.append h2 (by simp) (by simpa using h)
    intro later
    induction later generalizing c with
    | nil => exact hnd
    | cons x later ih => exact ih (insertUnique c x) (one c hnd x)

/-- C7 witness: inserting the same path three times into a concrete list adds
it exactly once, at the end. -/
theorem insertUnique_spec_witness :
    insertTimes [ "a.js".toList ] "b.js".toList 3
      = [ "a.js".toList, "b.js".toList ] := by
  have h := insertUnique_spec [ "a.js".toList ] "b.js".toList (by decide)
  rw [h.2.2.1 2, h.2.1 (by decide)]
  rfl

/-! ### C8: target include filtering -/

theorem erasePass_eq_filter (p : GdString → Bool) :
    ∀ l : List GdString, erasePass p l = l.filter (fun f => !p f) := by
  intro l
  induction l with
  | nil => rfl
  | cons f rest ih =>
    cases hp : p f <;> simp [erasePass, hp, ih, List.filter_cons]

/-- C8: the target filtering removes, in place, exactly the paths containing
one of the exclusion markers selected by the renderer-removal flags, and the
survivors keep their relative order (the result is the order-preserving
filter, and a sublist, of the input). -/
theorem removeIncludes_spec (pixiRenderers cocosRenderers : Bool)
    (includesFiles : List GdString) :
    removeIncludes pixiRenderers cocosRenderers includesFiles
      = includesFiles.filter
          (fun f => !((pixiRenderers && matchesPixiExclusion f)
            || (cocosRenderers && matchesCocosExclusion f))) ∧
    List.Sublist (removeIncludes pixiRenderers cocosRenderers includesFiles)
      includesFiles := by
  have hmain : removeIncludes pixiRenderers cocosRenderers includesFiles
      = includesFiles.filter
          (fun f => !((pixiRenderers && matchesPixiExclusion f)
            || (cocosRenderers && matchesCocosExclusion f))) := by
    unfold removeIncludes
    cases pixiRenderers <;> cases cocosRenderers <;>
      simp [erasePass_eq_filter, List.filter_filter]
    · exact (List.filter_congr fun f _ => by
        cases matchesPixiExclusion f <;> cases matchesCocosExclusion f <;> rfl).symm
  refine ⟨hmain, ?_⟩
  rw [hmain]
  exact List.filter_sublist includesFiles

/-! ### C9: filtering happens before the runtime options document is built -/

/-- C9: in the preview export pipeline, the cocos include filtering stage runs
before the runtime options document is assembled, so no scriptFile entry of
that document has a path containing a cocos exclusion marker. -/
theorem previewScriptFiles_no_cocos (options : PreviewExportOptions)
    (effectIncludes : List GdString) (layouts : List LayoutCodeGenResult)
    (sourceOutputFiles : List GdString) :
    ∀ entry ∈ (previewRuntimeGameOptions options effectIncludes layouts
        sourceOutputFiles).scriptFiles,
      occurs markerCocosRenderer entry.path = false ∧
      occurs markerCocosShader entry.path = false := by
  intro entry hmem
  have hpath : entry.path ∈ previewIncludesFiles effectIncludes layouts
      sourceOutputFiles := by
    simp only [previewRuntimeGameOptions, buildRuntimeGameOptions,
      List.mem_map] at hmem
    rcases hmem with ⟨f, hf, rfl⟩
    exact hf
  have hfilter := (removeIncludes_spec false true
    (exportExternalSourceFiles sourceOutputFiles
      (exportEventsCode layouts
        (exportEffectIncludes effectIncludes
          (addLibsInclude true false true []))))).1
  rw [previewIncludesFiles] at hpath
  rw [hfilter] at hpath
  have hkeep := List.of_mem_filter hpath
  simp only [Bool.false_and, Bool.true_and, Bool.false_or,
    Bool.not_eq_true', Bool.or_eq_false_iff] at hkeep
  simpa [matchesCocosExclusion, Bool.or_eq_false_iff] using hkeep

/-- C9 witness: a concrete preview run keeps `gd.js` in the scriptFiles list,
and that path carries no cocos exclusion marker. -/
theorem previewScriptFiles_no_cocos_witness :
    occurs markerCocosRenderer ("gd.js".toList) = false ∧
    occurs markerCocosShader ("gd.js".toList) = false := by
  have h := previewScriptFiles_no_cocos
    { layoutName := [], externalLayoutName := [], includeFileHashes := [] }
    [] [] [] { path := "gd.js".toList, hash := 0 } (by decide)
  exact h

/-! ### C10: the runtime options document -/

/-- C10: in the runtime options document, each include file yields exactly one
scriptFile entry, in order: entry `i` has the `i`-th include path and the hash
looked up in the options map (0 when absent); the injectExternalLayout child
is present exactly when the requested external layout name is nonempty; the
preview flag is set. -/
theorem buildRuntimeGameOptions_spec (options : PreviewExportOptions)
    (includesFiles : List GdString) :
    (buildRuntimeGameOptions options includesFiles).scriptFiles.length
        = includesFiles.length ∧
    (∀ i : Nat,
      (buildRuntimeGameOptions options includesFiles).scriptFiles.get? i
        = (includesFiles.get? i).map (fun f =>
            { path := f, hash := (options.includeFileHashes.lookup f).getD 0 })) ∧
    ((buildRuntimeGameOptions options includesFiles).injectExternalLayout = none
        ↔ options.externalLayoutName = []) ∧
    (buildRuntimeGameOptions options includesFiles).isPreview = true := by
  refine ⟨by simp [buildRuntimeGameOptions], fun i => ?_, ?_, rfl⟩
  · simp [buildRuntimeGameOptions, List.get?_map]
  · simp only [buildRuntimeGameOptions]
    by_cases h : options.externalLayoutName = []
    · simp [h]
    · simp [h, List.isEmpty_iff]

/-! ### C1: the template engine is not single-pass across a call chain -/

/-- C1 counterexample: with template `X` and the ordered pairs
`(X, Y), (Y, Z)`, the replacement supplied for `X` contains the later token
`Y`, yet the final output is `Z` with no occurrence of `Y` left — the later
`FindAndReplace` call re-scans the text produced by the earlier one, so the
occurrence of `Y` is NOT left unexpanded as the claim states. -/
theorem applyReplacements_rescan_counterexample :
    applyReplacements [ 'X' ] [ ([ 'X' ], [ 'Y' ]), ([ 'Y' ], [ 'Z' ]) ] = [ 'Z' ] ∧
    occurs [ 'Y' ]
        (applyReplacements [ 'X' ] [ ([ 'X' ], [ 'Y' ]), ([ 'Y' ], [ 'Z' ]) ])
      = false := by
  exact ⟨by decide, by decide⟩

/-- C1 amended: substitution is single-pass within each `FindAndReplace`
call — when a token is found, its replacement is emitted verbatim and the scan
continues after it, so the replacement is never re-scanned for the same
token.  Across the call chain, however, a later call re-scans all text
produced so far: if the replacement for `X` is exactly the later token `Y`,
the chained result is `Y`'s replacement, not `Y`. -/
theorem findAndReplace_single_pass_amended (tok rep b X Y rY : GdString)
    (htok : tok ≠ []) (hX : X ≠ []) (hY : Y ≠ []) :
    findAndReplace tok rep (tok ++ b) = rep ++ findAndReplace tok rep b ∧
    applyReplacements X [ (X, Y), (Y, rY) ] = rY := by
  refine ⟨findAndReplace_hit rep htok b, ?_⟩
  show findAndReplace Y rY (findAndReplace X Y X) = rY
  have h1 : findAndReplace X Y X = Y := by
    have h0 := @findAndReplace_hit X Y hX []
    simpa [findAndReplace_nil] using h0
  rw [h1]
  have h2 := @findAndReplace_hit Y rY hY []
  simpa [findAndReplace_nil] using h2

/-- C1 amended witness at concrete values. -/
theorem findAndReplace_single_pass_amended_witness :
    findAndReplace ("T".toList) ("YY".toList) ("T".toList ++ "b".toList)
        = "YY".toList ++ findAndReplace ("T".toList) ("YY".toList) ("b".toList) ∧
    applyReplacements ("X".toList)
        [ ( "X".toList, "Y".toList), ( "Y".toList, "Q".toList) ]
      = "Q".toList :=
  findAndReplace_single_pass_amended _ _ _ _ _ _ (by decide) (by decide) (by decide)

/-! ### C4: default-value literal rendering by type -/

/-- C4: the rendered default value is determined by the type tag: String or
Choice yield the quoted-and-escaped literal of the stored value; Number
yields the coercion expression with zero fallback; Boolean yields the literal
`true` exactly when the stored text equals `true` and `false` otherwise; any
other type yields the inline error marker instead of failing. -/
theorem generatePropertyValueCode_spec (p : NamedPropertyDescriptor) :
    ((p.type = strString ∨ p.type = strChoice) →
      generatePropertyValueCode p = '"' :: (escapeForJs p.value ++ [ '"' ])) ∧
    (p.type = strNumber →
      generatePropertyValueCode p
        = numberCoercionOpen ++ ('"' :: (escapeForJs p.value ++ [ '"' ]))
            ++ numberCoercionClose) ∧
    (p.type = strBoolean →
      ((generatePropertyValueCode p = strTrue ↔ p.value = strTrue) ∧
        (p.value ≠ strTrue → generatePropertyValueCode p = strFalse))) ∧
    (p.type ≠ strString → p.type ≠ strChoice → p.type ≠ strNumber →
      p.type ≠ strBoolean →
      generatePropertyValueCode p = unrecognizedTypeErrorValue) := by
  refine ⟨?_, ?_, ?_, ?_⟩
  · intro h
    simp [generatePropertyValueCode, h, convertToStringExplicit]
  · intro h
    simp only [generatePropertyValueCode, h]
    rw [if_neg (by decide : ¬(strNumber = strString ∨ strNumber = strChoice))]
    simp [convertToStringExplicit]
  · intro h
    have hval : generatePropertyValueCode p
        = (if p.value = strTrue then strTrue else strFalse) := by
      simp only [generatePropertyValueCode, h]
      rw [if_neg (by decide : ¬(strBoolean = strString ∨ strBoolean = strChoice)),
        if_neg (by decide : ¬strBoolean = strNumber)]
      simp
    constructor
    · by_cases hv : p.value = strTrue
      · rw [hval, if_pos hv]
        exact ⟨fun _ => hv, fun _ => rfl⟩
      · rw [hval, if_neg hv]
        exact ⟨fun hc => absurd hc (by decide), fun hc => absurd hc hv⟩
    · intro hv
      rw [hval, if_neg hv]
  · intro h1 h2 h3 h4
    simp [generatePropertyValueCode, h1, h2, h3, h4]

/-- C4 witness: a Boolean property whose stored text is `true` renders as the
literal `true`. -/
theorem generatePropertyValueCode_spec_witness :
    generatePropertyValueCode
        { name := "active".toList, type := "Boolean".toList,
          value := "true".toList, hidden := false }
      = strTrue :=
  ((generatePropertyValueCode_spec _).2.2.1 rfl).1.mpr rfl

/-! ### C5: unmapped event function names degrade to a sentinel -/

/-- C5: when the mangled-name map has no entry for an event function, code
generation still succeeds and uses the fixed sentinel method name, proceeding
exactly as it would had the map carried the sentinel for that function. -/
theorem unmapped_function_uses_sentinel (gen : MethodBodyGenerator)
    (beh : EventsBasedBehavior) (codeNamespace : GdString)
    (mangledNames : List (GdString × GdString)) (fn : EventsFunction)
    (h : mangledNames.lookup fn.name = none) :
    mangledOrSentinel mangledNames fn.name = sentinelFunctionName ∧
    generateBehaviorMethodCode gen beh codeNamespace mangledNames fn
      = generateBehaviorMethodCode gen beh codeNamespace
          ((fn.name, sentinelFunctionName) :: mangledNames) fn := by
  have h1 : mangledOrSentinel mangledNames fn.name = sentinelFunctionName := by
    simp [mangledOrSentinel, h]
  have h2 : mangledOrSentinel ((fn.name, sentinelFunctionName) :: mangledNames)
      fn.name = sentinelFunctionName := by
    simp [mangledOrSentinel, List.lookup]
  refine ⟨h1, ?_⟩
  simp only [generateBehaviorMethodCode, h1, h2]

/-- C5 witness: with an empty mangled-name map, a concrete event function is
generated with the sentinel name, exactly as with a map carrying the
sentinel. -/
theorem unmapped_function_uses_sentinel_witness :
    mangledOrSentinel [] ("MyFunc".toList) = sentinelFunctionName ∧
    generateBehaviorMethodCode (fun _ _ q => q)
        { name := "B".toList, fullName := "B".toList,
          propertyDescriptors := [], eventsFunctions := [] }
        ("gdjs.ns".toList) [] { name := "MyFunc".toList }
      = generateBehaviorMethodCode (fun _ _ q => q)
          { name := "B".toList, fullName := "B".toList,
            propertyDescriptors := [], eventsFunctions := [] }
          ("gdjs.ns".toList) [ ( "MyFunc".toList, sentinelFunctionName) ]
          { name := "MyFunc".toList } :=
  unmapped_function_uses_sentinel _ _ _ _ _ rfl

/-! ### C2: property initialization by hidden flag -/

theorem cleanForCodegen_spec {s : GdString} (h : cleanForCodegen s = true)
    {t : GdString} (ht : t ∈ criticalTokens) : overlapFree t s = true := by
  rw [cleanForCodegen, List.all_eq_true] at h
  exact h t ht

theorem isPrefixOf_eq_false_iff {l1 l2 : GdString} :
    l1.isPrefixOf l2 = false ↔ ¬l1 <+: l2 := by
  rw [← List.isPrefixOf_iff_prefix]
  cases l1.isPrefixOf l2 <;> simp

theorem isPrefixOf_head_ne {c d : Char} (h : c ≠ d) (l1 l2 : GdString) :
    (c :: l1).isPrefixOf (d :: l2) = false := by
  rw [isPrefixOf_eq_false_iff]
  rintro ⟨t, ht⟩
  simp only [List.cons_append] at ht
  injection ht with h1 _
  exact h h1

theorem isPrefixOf_head2_ne {a b c d : Char} (h : b ≠ d) (l1 l2 : GdString) :
    (a :: b :: l1).isPrefixOf (c :: d :: l2) = false := by
  rw [isPrefixOf_eq_false_iff]
  rintro ⟨t, ht⟩
  simp only [List.cons_append] at ht
  injection ht with h1 ht2
  injection ht2 with h2 _
  exact h h2

/-- Extend overlap-freeness by one leading character, given that the token
does not start at that character and that the extended text does not start
the token. -/
theorem overlapFree_cons_of {tok : GdString} {c : Char} {rest : GdString}
    (h1 : overlapFree tok rest = true)
    (h2 : tok.isPrefixOf (c :: rest) = false)
    (h3 : (c :: rest).isPrefixOf tok = false) :
    overlapFree tok (c :: rest) = true := by
  rw [overlapFree_iff] at h1 ⊢
  intro t ht hne
  rcases List.suffix_cons_iff.mp ht with rfl | hts
  · exact ⟨isPrefixOf_eq_false_iff.mp h2, isPrefixOf_eq_false_iff.mp h3⟩
  · exact h1 t hts hne

/-- Every rendered default value starts with a quote, `N`, `t`, `f` or `0` —
never with `b`, so it can never continue into `behaviorData.`. -/
theorem generatePropertyValueCode_head (p : NamedPropertyDescriptor) :
    ∃ c rest, generatePropertyValueCode p = c :: rest ∧ c ≠ 'b' := by
  unfold generatePropertyValueCode convertToStringExplicit
  by_cases h1 : p.type = strString ∨ p.type = strChoice
  · rw [if_pos h1]
    exact ⟨'"', _, rfl, by decide⟩
  · rw [if_neg h1]
    by_cases h2 : p.type = strNumber
    · rw [if_pos h2]
      exact ⟨'N', _, rfl, by decide⟩
    · rw [if_neg h2]
      by_cases h3 : p.type = strBoolean
      · rw [if_pos h3]
        by_cases h4 : p.value = strTrue
        · rw [if_pos h4]
          exact ⟨'t', _, rfl, by decide⟩
        · rw [if_neg h4]
          exact ⟨'f', _, rfl, by decide⟩
      · rw [if_neg h3]
        exact ⟨'0', _, rfl, by decide⟩

/-- The tail ` = DEFAULT;` of the hidden initializer never contains a
space-preceded `behaviorData.` reference, because the rendered default never
starts with `b`. -/
theorem overlapFree_marker_assign_block {dflt : GdString} {c : Char}
    {rest : GdString} (hd : dflt = c :: rest) (hc : c ≠ 'b')
    (hfree : overlapFree behaviorDataRefMarker dflt = true) :
    overlapFree behaviorDataRefMarker (segInitF ++ (dflt ++ segInitE)) = true := by
  have hM : behaviorDataRefMarker = ' ' :: 'b' :: "ehaviorData.".toList := by decide
  subst hd
  have h3 : overlapFree behaviorDataRefMarker (c :: (rest ++ segInitE)) = true := by
    have h0 := overlapFree_append hfree
      (by decide : overlapFree behaviorDataRefMarker segInitE = true)
    simpa using h0
  have h2 : overlapFree behaviorDataRefMarker
      (' ' :: c :: (rest ++ segInitE)) = true := by
    refine overlapFree_cons_of h3 ?_ ?_
    · rw [hM]
      exact isPrefixOf_head2_ne (fun he => hc he.symm) _ _
    · rw [hM]
      exact isPrefixOf_head2_ne hc _ _
  have h1 : overlapFree behaviorDataRefMarker
      ('=' :: ' ' :: c :: (rest ++ segInitE)) = true := by
    refine overlapFree_cons_of h2 ?_ ?_
    · rw [hM]
      exact isPrefixOf_head_ne (by decide) _ _
    · rw [hM]
      exact isPrefixOf_head_ne (by decide) _ _
  have h0 : overlapFree behaviorDataRefMarker
      (' ' :: '=' :: ' ' :: c :: (rest ++ segInitE)) = true := by
    refine overlapFree_cons_of h1 ?_ ?_
    · rw [hM]
      exact isPrefixOf_head2_ne (by decide) _ _
    · rw [hM]
      exact isPrefixOf_head2_ne (by decide) _ _
  exact h0

/-- The hidden-property initializer fully decomposed: a direct assignment of
the rendered default to the internal slot. -/
theorem initFromDefault_decomposition (p : NamedPropertyDescriptor)
    (hn : overlapFree tokDEFAULT_VALUE p.name = true) :
    generateInitializePropertyFromDefaultValueCode p
      = segInitA ++ p.name ++ segInitF ++ generatePropertyValueCode p
          ++ segInitE := by
  have hT : initializePropertyFromDefaultValueTemplate
      = renderPieces [ Piece.lit segInitA, Piece.lit tokPROPERTY_NAME,
          Piece.lit segInitF, Piece.lit tokDEFAULT_VALUE, Piece.lit segInitE ] := by
    decide
  unfold generateInitializePropertyFromDefaultValueCode
  rw [hT, findAndReplace_pieces tokPROPERTY_NAME p.name (by decide) _ (by decide)
    (by intro v hv; simp [holesOf] at hv)]
  have hmap1 : ([ Piece.lit segInitA, Piece.lit tokPROPERTY_NAME,
      Piece.lit segInitF, Piece.lit tokDEFAULT_VALUE,
      Piece.lit segInitE ].map (substPiece tokPROPERTY_NAME p.name))
      = [ Piece.lit segInitA, Piece.hole p.name, Piece.lit segInitF,
          Piece.lit tokDEFAULT_VALUE, Piece.lit segInitE ] := rfl
  rw [hmap1, findAndReplace_pieces tokDEFAULT_VALUE (generatePropertyValueCode p)
    (by decide) _ (by rfl) ?hholes]
  case hholes =>
    intro v hv
    have h0 : holesOf [ Piece.lit segInitA, Piece.hole p.name, Piece.lit segInitF,
        Piece.lit tokDEFAULT_VALUE, Piece.lit segInitE ] = [ p.name ] := rfl
    rw [h0] at hv
    have hv2 : v = p.name := List.mem_singleton.mp hv
    rw [hv2]
    exact hn
  have hmap2 : ([ Piece.lit segInitA, Piece.hole p.name, Piece.lit segInitF,
      Piece.lit tokDEFAULT_VALUE, Piece.lit segInitE ].map
        (substPiece tokDEFAULT_VALUE (generatePropertyValueCode p)))
      = [ Piece.lit segInitA, Piece.hole p.name, Piece.lit segInitF,
          Piece.hole (generatePropertyValueCode p), Piece.lit segInitE ] := rfl
  rw [hmap2]
  simp [renderPieces]

/-- The non-hidden initializer fully decomposed: a guarded read of the
external input-data key with fallback to the rendered default. -/
theorem initFromData_decomposition (p : NamedPropertyDescriptor)
    (hn : overlapFree tokDEFAULT_VALUE p.name = true) :
    generateInitializePropertyFromDataCode p
      = segInitA ++ p.name ++ segInitB ++ p.name ++ segInitC ++ p.name
          ++ segInitD ++ generatePropertyValueCode p ++ segInitE := by
  have hT : initializePropertyFromDataTemplate
      = renderPieces [ Piece.lit segInitA, Piece.lit tokPROPERTY_NAME,
          Piece.lit segInitB, Piece.lit tokPROPERTY_NAME, Piece.lit segInitC,
          Piece.lit tokPROPERTY_NAME, Piece.lit segInitD,
          Piece.lit tokDEFAULT_VALUE, Piece.lit segInitE ] := by
    decide
  unfold generateInitializePropertyFromDataCode
  rw [hT, findAndReplace_pieces tokPROPERTY_NAME p.name (by decide) _ (by decide)
    (by intro v hv; simp [holesOf] at hv)]
  have hmap1 : ([ Piece.lit segInitA, Piece.lit tokPROPERTY_NAME,
      Piece.lit segInitB, Piece.lit tokPROPERTY_NAME, Piece.lit segInitC,
      Piece.lit tokPROPERTY_NAME, Piece.lit segInitD,
      Piece.lit tokDEFAULT_VALUE, Piece.lit segInitE ].map
        (substPiece tokPROPERTY_NAME p.name))
      = [ Piece.lit segInitA, Piece.hole p.name, Piece.lit segInitB,
          Piece.hole p.name, Piece.lit segInitC, Piece.hole p.name,
          Piece.lit segInitD, Piece.lit tokDEFAULT_VALUE,
          Piece.lit segInitE ] := rfl
  rw [hmap1, findAndReplace_pieces tokDEFAULT_VALUE (generatePropertyValueCode p)
    (by decide) _ (by rfl) ?hholes]
  case hholes =>
    intro v hv
    have h0 : holesOf [ Piece.lit segInitA, Piece.hole p.name, Piece.lit segInitB,
        Piece.hole p.name, Piece.lit segInitC, Piece.hole p.name,
        Piece.lit segInitD, Piece.lit tokDEFAULT_VALUE, Piece.lit segInitE ]
        = [ p.name, p.name, p.name ] := rfl
    rw [h0] at hv
    have hv2 : v = p.name := by
      rcases List.mem_cons.mp hv with h | h2
      · exact h
      · rcases List.mem_cons.mp h2 with h | h3
        · exact h
        · exact List.mem_singleton.mp h3
    rw [hv2]
    exact hn
  have hmap2 : ([ Piece.lit segInitA, Piece.hole p.name, Piece.lit segInitB,
      Piece.hole p.name, Piece.lit segInitC, Piece.hole p.name,
      Piece.lit segInitD, Piece.lit tokDEFAULT_VALUE, Piece.lit segInitE ].map
        (substPiece tokDEFAULT_VALUE (generatePropertyValueCode p)))
      = [ Piece.lit segInitA, Piece.hole p.name, Piece.lit segInitB,
          Piece.hole p.name, Piece.lit segInitC, Piece.hole p.name,
          Piece.lit segInitD, Piece.hole (generatePropertyValueCode p),
          Piece.lit segInitE ] := rfl
  rw [hmap2]
  simp [renderPieces]

theorem initFromDefault_no_external_ref (p : NamedPropertyDescriptor)
    (hn : overlapFree tokDEFAULT_VALUE p.name = true)
    (hm1 : overlapFree behaviorDataRefMarker p.name = true)
    (hm2 : overlapFree behaviorDataRefMarker (generatePropertyValueCode p) = true) :
    occurs behaviorDataRefMarker
      (generateInitializePropertyFromDefaultValueCode p) = false := by
  rw [initFromDefault_decomposition p hn]
  simp only [List.append_assoc]
  apply occurs_eq_false_of_overlapFree (by decide)
  obtain ⟨c, rest, hdf, hcb⟩ := generatePropertyValueCode_head p
  exact overlapFree_append (by decide)
    (overlapFree_append hm1 (overlapFree_marker_assign_block hdf hcb hm2))

theorem initFromData_has_external_ref (p : NamedPropertyDescriptor)
    (hn : overlapFree tokDEFAULT_VALUE p.name = true) :
    occurs behaviorDataRefMarker
      (generateInitializePropertyFromDataCode p) = true := by
  rw [initFromData_decomposition p hn]
  simp only [List.append_assoc]
  exact occurs_append_right _ (occurs_append_right _
    (occurs_append_left _ (by decide)))

/-- C2: per property, the generated initialization fragment dispatches on the
hidden flag; the hidden fragment assigns the internal slot directly to the
rendered default and never mentions the external input-data map, while the
non-hidden fragment reads the input-data map at the property name with an
undefined-guard falling back to the rendered default. -/
theorem initializeProperty_spec (p : NamedPropertyDescriptor)
    (hn : overlapFree tokDEFAULT_VALUE p.name = true)
    (hm1 : overlapFree behaviorDataRefMarker p.name = true)
    (hm2 : overlapFree behaviorDataRefMarker (generatePropertyValueCode p) = true) :
    (generateInitializePropertiesCode
        { name := [], fullName := [], propertyDescriptors := [ p ],
          eventsFunctions := [] }
      = (if p.hidden then generateInitializePropertyFromDefaultValueCode p
          else generateInitializePropertyFromDataCode p)) ∧
    (generateInitializePropertyFromDefaultValueCode p
      = segInitA ++ p.name ++ segInitF ++ generatePropertyValueCode p
          ++ segInitE) ∧
    occurs behaviorDataRefMarker
      (generateInitializePropertyFromDefaultValueCode p) = false ∧
    (generateInitializePropertyFromDataCode p
      = segInitA ++ p.name ++ segInitB ++ p.name ++ segInitC ++ p.name
          ++ segInitD ++ generatePropertyValueCode p ++ segInitE) ∧
    occurs behaviorDataRefMarker
      (generateInitializePropertyFromDataCode p) = true := by
  refine ⟨?_, initFromDefault_decomposition p hn,
    initFromDefault_no_external_ref p hn hm1 hm2,
    initFromData_decomposition p hn, initFromData_has_external_ref p hn⟩
  simp [generateInitializePropertiesCode]

/-- C2 witness: a concrete hidden Number property generates an initializer
with no reference to the external input-data map. -/
theorem initializeProperty_spec_witness :
    occurs behaviorDataRefMarker (generateInitializePropertyFromDefaultValueCode
      { name := "speed".toList, type := "Number".toList, value := "10".toList,
        hidden := true }) = false :=
  (initializeProperty_spec _ (by decide) (by decide) (by decide)).2.2.1

/-! ### The accessor pair generated for one property -/

/-- `GenerateRuntimeBehaviorPropertyTemplateCode` fully decomposed: one getter
returning the stored slot with fallback to the rendered default, then one
setter overwriting the stored slot unconditionally. -/
theorem accessor_decomposition (beh : EventsBasedBehavior) (ns : GdString)
    (p : NamedPropertyDescriptor)
    (hpn : cleanForCodegen p.name = true)
    (hdv : cleanForCodegen (generatePropertyValueCode p) = true)
    (hbn : cleanForCodegen beh.name = true) :
    generateRuntimeBehaviorPropertyTemplateCode beh ns p
      = segAccNl ++ ns ++ segAccDot ++ beh.name ++ segAccProto
          ++ getBehaviorPropertyGetterName p.name ++ segAccGetOpen ++ p.name
          ++ segAccUndef ++ p.name ++ segAccColon ++ generatePropertyValueCode p
          ++ segAccMid ++ ns ++ segAccDot ++ beh.name ++ segAccProto
          ++ getBehaviorPropertySetterName p.name ++ segAccSetOpen ++ p.name
          ++ segAccSet := by
  have hPNgn : overlapFree tokGETTER_NAME p.name = true :=
    cleanForCodegen_spec hpn (by decide)
  have hPNsn : overlapFree tokSETTER_NAME p.name = true :=
    cleanForCodegen_spec hpn (by decide)
  have hPNdv : overlapFree tokDEFAULT_VALUE p.name = true :=
    cleanForCodegen_spec hpn (by decide)
  have hPNrb : overlapFree tokRUNTIME_BEHAVIOR_CLASSNAME p.name = true :=
    cleanForCodegen_spec hpn (by decide)
  have hPNcn : overlapFree tokCODE_NAMESPACE p.name = true :=
    cleanForCodegen_spec hpn (by decide)
  have hGsn : overlapFree tokSETTER_NAME (getBehaviorPropertyGetterName p.name) = true :=
    overlapFree_append (by decide) hPNsn
  have hGdv : overlapFree tokDEFAULT_VALUE (getBehaviorPropertyGetterName p.name) = true :=
    overlapFree_append (by decide) hPNdv
  have hGrb : overlapFree tokRUNTIME_BEHAVIOR_CLASSNAME
      (getBehaviorPropertyGetterName p.name) = true :=
    overlapFree_append (by decide) hPNrb
  have hGcn : overlapFree tokCODE_NAMESPACE (getBehaviorPropertyGetterName p.name) = true :=
    overlapFree_append (by decide) hPNcn
  have hSdv : overlapFree tokDEFAULT_VALUE (getBehaviorPropertySetterName p.name) = true :=
    overlapFree_append (by decide) hPNdv
  have hSrb : overlapFree tokRUNTIME_BEHAVIOR_CLASSNAME
      (getBehaviorPropertySetterName p.name) = true :=
    overlapFree_append (by decide) hPNrb
  have hScn : overlapFree tokCODE_NAMESPACE (getBehaviorPropertySetterName p.name) = true :=
    overlapFree_append (by decide) hPNcn
  have hDrb : overlapFree tokRUNTIME_BEHAVIOR_CLASSNAME (generatePropertyValueCode p) = true :=
    cleanForCodegen_spec hdv (by decide)
  have hDcn : overlapFree tokCODE_NAMESPACE (generatePropertyValueCode p) = true :=
    cleanForCodegen_spec hdv (by decide)
  have hBcn : overlapFree tokCODE_NAMESPACE beh.name = true :=
    cleanForCodegen_spec hbn (by decide)
  have hT : propertyAccessorsTemplate = renderPieces accessorPieces := by
    decide
  have nilHoles : ∀ P : GdString → Prop, ∀ v ∈ ([] : List GdString), P v :=
    fun P v hv => absurd hv (List.not_mem_nil v)
  unfold generateRuntimeBehaviorPropertyTemplateCode
  rw [hT,
    findAndReplace_pieces tokPROPERTY_NAME p.name (by decide)
      accessorPieces (by decide)
      (fun v hv => absurd hv (List.not_mem_nil v)),
    findAndReplace_pieces tokGETTER_NAME (getBehaviorPropertyGetterName p.name)
      (by decide)
      (accessorPieces.map (substPiece tokPROPERTY_NAME p.name)) (by rfl)
      (List.forall_mem_cons.mpr ⟨hPNgn, List.forall_mem_cons.mpr ⟨hPNgn,
        List.forall_mem_cons.mpr ⟨hPNgn, nilHoles _⟩⟩⟩),
    findAndReplace_pieces tokSETTER_NAME (getBehaviorPropertySetterName p.name)
      (by decide)
      ((accessorPieces.map (substPiece tokPROPERTY_NAME p.name)).map
        (substPiece tokGETTER_NAME (getBehaviorPropertyGetterName p.name)))
      (by rfl)
      (List.forall_mem_cons.mpr ⟨hGsn, List.forall_mem_cons.mpr ⟨hPNsn,
        List.forall_mem_cons.mpr ⟨hPNsn, List.forall_mem_cons.mpr ⟨hPNsn,
          nilHoles _⟩⟩⟩⟩),
    findAndReplace_pieces tokDEFAULT_VALUE (generatePropertyValueCode p)
      (by decide)
      (((accessorPieces.map (substPiece tokPROPERTY_NAME p.name)).map
        (substPiece tokGETTER_NAME (getBehaviorPropertyGetterName p.name))).map
          (substPiece tokSETTER_NAME (getBehaviorPropertySetterName p.name)))
      (by rfl)
      (List.forall_mem_cons.mpr ⟨hGdv, List.forall_mem_cons.mpr ⟨hPNdv,
        List.forall_mem_cons.mpr ⟨hPNdv, List.forall_mem_cons.mpr ⟨hSdv,
          List.forall_mem_cons.mpr ⟨hPNdv, nilHoles _⟩⟩⟩⟩⟩),
    findAndReplace_pieces tokRUNTIME_BEHAVIOR_CLASSNAME beh.name
      (by decide)
      ((((accessorPieces.map (substPiece tokPROPERTY_NAME p.name)).map
        (substPiece tokGETTER_NAME (getBehaviorPropertyGetterName p.name))).map
          (substPiece tokSETTER_NAME (getBehaviorPropertySetterName p.name))).map
            (substPiece tokDEFAULT_VALUE (generatePropertyValueCode p)))
      (by rfl)
      (List.forall_mem_cons.mpr ⟨hGrb, List.forall_mem_cons.mpr ⟨hPNrb,
        List.forall_mem_cons.mpr ⟨hPNrb, List.forall_mem_cons.mpr ⟨hDrb,
          List.forall_mem_cons.mpr ⟨hSrb, List.forall_mem_cons.mpr ⟨hPNrb,
            nilHoles _⟩⟩⟩⟩⟩⟩),
    findAndReplace_pieces tokCODE_NAMESPACE ns (by decide)
      (((((accessorPieces.map (substPiece tokPROPERTY_NAME p.name)).map
        (substPiece tokGETTER_NAME (getBehaviorPropertyGetterName p.name))).map
          (substPiece tokSETTER_NAME (getBehaviorPropertySetterName p.name))).map
            (substPiece tokDEFAULT_VALUE (generatePropertyValueCode p))).map
              (substPiece tokRUNTIME_BEHAVIOR_CLASSNAME beh.name))
      (by rfl)
      (List.forall_mem_cons.mpr ⟨hBcn, List.forall_mem_cons.mpr ⟨hGcn,
        List.forall_mem_cons.mpr ⟨hPNcn, List.forall_mem_cons.mpr ⟨hPNcn,
          List.forall_mem_cons.mpr ⟨hDcn, List.forall_mem_cons.mpr ⟨hBcn,
            List.forall_mem_cons.mpr ⟨hScn, List.forall_mem_cons.mpr ⟨hPNcn,
              nilHoles _⟩⟩⟩⟩⟩⟩⟩⟩)]
  show renderPieces
      [ Piece.lit segAccNl, Piece.hole ns, Piece.lit segAccDot,
        Piece.hole beh.name, Piece.lit segAccProto,
        Piece.hole (getBehaviorPropertyGetterName p.name), Piece.lit segAccGetOpen,
        Piece.hole p.name, Piece.lit segAccUndef,
        Piece.hole p.name, Piece.lit segAccColon,
        Piece.hole (generatePropertyValueCode p), Piece.lit segAccMid,
        Piece.hole ns, Piece.lit segAccDot,
        Piece.hole beh.name, Piece.lit segAccProto,
        Piece.hole (getBehaviorPropertySetterName p.name), Piece.lit segAccSetOpen,
        Piece.hole p.name, Piece.lit segAccSet ] = _
  simp [renderPieces]

/-- The hot-reload fragment for one property, fully decomposed (no
hypotheses: the template has a single placeholder). -/
theorem updateProperty_decomposition (beh : EventsBasedBehavior) (ns : GdString)
    (p : NamedPropertyDescriptor) :
    generateUpdatePropertyFromBehaviorDataCode beh ns p
      = segUpdA ++ p.name ++ segUpdB ++ p.name ++ segUpdC ++ p.name ++ segUpdD
          ++ p.name ++ segInitE := by
  have hT : updatePropertyTemplate = renderPieces
      [ Piece.lit segUpdA, Piece.lit tokPROPERTY_NAME, Piece.lit segUpdB,
        Piece.lit tokPROPERTY_NAME, Piece.lit segUpdC,
        Piece.lit tokPROPERTY_NAME, Piece.lit segUpdD,
        Piece.lit tokPROPERTY_NAME, Piece.lit segInitE ] := by decide
  unfold generateUpdatePropertyFromBehaviorDataCode
  rw [hT, findAndReplace_pieces tokPROPERTY_NAME p.name (by decide)
    [ Piece.lit segUpdA, Piece.lit tokPROPERTY_NAME, Piece.lit segUpdB,
      Piece.lit tokPROPERTY_NAME, Piece.lit segUpdC,
      Piece.lit tokPROPERTY_NAME, Piece.lit segUpdD,
      Piece.lit tokPROPERTY_NAME, Piece.lit segInitE ]
    (by decide) (fun v hv => absurd hv (List.not_mem_nil v))]
  show renderPieces [ Piece.lit segUpdA, Piece.hole p.name, Piece.lit segUpdB,
      Piece.hole p.name, Piece.lit segUpdC, Piece.hole p.name,
      Piece.lit segUpdD, Piece.hole p.name, Piece.lit segInitE ] = _
  simp [renderPieces]

/-! ### C6: the legacy destroy-lifecycle compatibility shim -/

/-- The compatibility shim fully decomposed: it defines
`prototype.onDestroy` on the generated class and redirects to
`onOwnerRemovedFromScene`. -/
theorem onDestroyShim_decomposition (beh : EventsBasedBehavior) (ns : GdString)
    (hbn : overlapFree tokCODE_NAMESPACE beh.name = true) :
    generateBehaviorOnDestroyToDeprecatedOnOwnerRemovedFromScene beh ns
      = segAccNl ++ ns ++ segAccDot ++ beh.name ++ segShimTail := by
  have hT : onDestroyShimTemplate = renderPieces
      [ Piece.lit segAccNl, Piece.lit tokCODE_NAMESPACE, Piece.lit segAccDot,
        Piece.lit tokRUNTIME_BEHAVIOR_CLASSNAME, Piece.lit segShimTail ] := by
    decide
  unfold generateBehaviorOnDestroyToDeprecatedOnOwnerRemovedFromScene
  rw [hT,
    findAndReplace_pieces tokRUNTIME_BEHAVIOR_CLASSNAME beh.name (by decide)
      [ Piece.lit segAccNl, Piece.lit tokCODE_NAMESPACE, Piece.lit segAccDot,
        Piece.lit tokRUNTIME_BEHAVIOR_CLASSNAME, Piece.lit segShimTail ]
      (by decide) (fun v hv => absurd hv (List.not_mem_nil v)),
    findAndReplace_pieces tokCODE_NAMESPACE ns (by decide)
      ([ Piece.lit segAccNl, Piece.lit tokCODE_NAMESPACE, Piece.lit segAccDot,
        Piece.lit tokRUNTIME_BEHAVIOR_CLASSNAME, Piece.lit segShimTail ].map
          (substPiece tokRUNTIME_BEHAVIOR_CLASSNAME beh.name))
      (by rfl)
      (List.forall_mem_cons.mpr
        ⟨hbn, fun v hv => absurd hv (List.not_mem_nil v)⟩)]
  show renderPieces [ Piece.lit segAccNl, Piece.hole ns, Piece.lit segAccDot,
      Piece.hole beh.name, Piece.lit segShimTail ] = _
  simp [renderPieces]

/-- A member of a list contributes its image contiguously to the
concatenation of the images. -/
theorem flatten_map_contains {α : Type} (f : α → GdString) (l : List α)
    {x : α} (hx : x ∈ l) :
    ∃ a b, (l.map f).flatten = a ++ f x ++ b := by
  induction l with
  | nil => cases hx
  | cons y l ih =>
    rcases List.mem_cons.mp hx with rfl | h2
    · exact ⟨[], (l.map f).flatten, by simp⟩
    · obtain ⟨a, b, hab⟩ := ih h2
      exact ⟨f y ++ a, b, by simp [hab, List.append_assoc]⟩

/-- C6: an event function whose mangled name is the destroy-lifecycle trigger
generates the canonical method immediately followed by the compatibility shim
(which defines `onDestroy` and redirects to `onOwnerRemovedFromScene`); any
other mangled name generates the canonical method alone; each per-function
fragment appears contiguously in the methods code. -/
theorem legacyShim_spec (gen : MethodBodyGenerator) (beh : EventsBasedBehavior)
    (ns : GdString) (m : List (GdString × GdString)) (fn : EventsFunction)
    (hbn : overlapFree tokCODE_NAMESPACE beh.name = true) :
    (mangledOrSentinel m fn.name = strOnOwnerRemovedFromScene →
      generateBehaviorMethodCode gen beh ns m fn
        = gen fn
            (ns ++ strDot ++ beh.name ++ strPrototypeDot
              ++ mangledOrSentinel m fn.name ++ strContext)
            (ns ++ strDot ++ beh.name ++ strPrototypeDot
              ++ mangledOrSentinel m fn.name)
          ++ (segAccNl ++ ns ++ segAccDot ++ beh.name ++ segShimTail)) ∧
    (mangledOrSentinel m fn.name ≠ strOnOwnerRemovedFromScene →
      generateBehaviorMethodCode gen beh ns m fn
        = gen fn
            (ns ++ strDot ++ beh.name ++ strPrototypeDot
              ++ mangledOrSentinel m fn.name ++ strContext)
            (ns ++ strDot ++ beh.name ++ strPrototypeDot
              ++ mangledOrSentinel m fn.name)) ∧
    (fn ∈ beh.eventsFunctions →
      ∃ a b, generateMethodsCode gen beh ns m
        = a ++ generateBehaviorMethodCode gen beh ns m fn ++ b) := by
  refine ⟨?_, ?_, ?_⟩
  · intro h
    simp only [generateBehaviorMethodCode, if_pos h]
    rw [onDestroyShim_decomposition beh ns hbn]
  · intro h
    simp only [generateBehaviorMethodCode, if_neg h, List.append_nil]
  · intro h
    exact flatten_map_contains _ _ h

/-- C6 witness: a concrete function mapped to `onOwnerRemovedFromScene`
yields the canonical method followed by the shim. -/
theorem legacyShim_spec_witness :
    generateBehaviorMethodCode sampleGen sampleBehavior sampleNamespace
        sampleMangledNames { name := "destroyFn".toList }
      = sampleGen { name := "destroyFn".toList }
          (sampleNamespace ++ strDot ++ sampleBehavior.name ++ strPrototypeDot
            ++ mangledOrSentinel sampleMangledNames ("destroyFn".toList)
            ++ strContext)
          (sampleNamespace ++ strDot ++ sampleBehavior.name ++ strPrototypeDot
            ++ mangledOrSentinel sampleMangledNames ("destroyFn".toList))
        ++ (segAccNl ++ sampleNamespace ++ segAccDot ++ sampleBehavior.name
            ++ segShimTail) :=
  (legacyShim_spec sampleGen sampleBehavior sampleNamespace sampleMangledNames
    { name := "destroyFn".toList } (by decide)).1 (by decide)

/-! ### C3: one accessor pair per property in the generated module -/

theorem litsOK_append (tok : GdString) :
    ∀ ps qs : List Piece, litsOK tok (ps ++ qs) = (litsOK tok ps && litsOK tok qs)
  | [], qs => by simp [litsOK]
  | Piece.lit l :: ps, qs => by
    simp [litsOK, litsOK_append tok ps qs, Bool.and_assoc]
  | Piece.hole v :: ps, qs => by
    simp [litsOK, litsOK_append tok ps qs]

theorem holesOf_append :
    ∀ ps qs : List Piece, holesOf (ps ++ qs) = holesOf ps ++ holesOf qs
  | [], _ => rfl
  | Piece.lit _ :: ps, qs => by simp [holesOf, holesOf_append ps qs]
  | Piece.hole v :: ps, qs => by simp [holesOf, holesOf_append ps qs]

theorem tokHitCount_append (tok : GdString) (ps qs : List Piece) :
    tokHitCount tok (ps ++ qs) = tokHitCount tok ps + tokHitCount tok qs := by
  simp [tokHitCount, List.countP_append]

theorem renderPieces_flatten :
    ∀ pss : List (List Piece),
      renderPieces pss.flatten = (pss.map renderPieces).flatten
  | [] => rfl
  | ps :: pss => by
    rw [List.flatten_cons, renderPieces_append, List.map_cons,
      List.flatten_cons, renderPieces_flatten pss]

theorem litsOK_flatten {tok : GdString} :
    ∀ pss : List (List Piece), (∀ ps ∈ pss, litsOK tok ps = true) →
      litsOK tok pss.flatten = true := by
  intro pss
  induction pss with
  | nil => intro _; rfl
  | cons ps pss ih =>
    intro h
    rw [List.flatten_cons, litsOK_append, h ps (by simp),
      ih fun qs hq => h qs (by simp [hq])]
    rfl

theorem holes_flatten {P : GdString → Prop} :
    ∀ pss : List (List Piece), (∀ ps ∈ pss, ∀ v ∈ holesOf ps, P v) →
      ∀ v ∈ holesOf pss.flatten, P v := by
  intro pss
  induction pss with
  | nil => intro _ v hv; exact absurd hv (List.not_mem_nil v)
  | cons ps pss ih =>
    intro h v hv
    rw [List.flatten_cons, holesOf_append] at hv
    rcases List.mem_append.mp hv with h1 | h1
    · exact h ps (by simp) v h1
    · exact ih (fun qs hq => h qs (by simp [hq])) v h1

theorem tokHitCount_flatten_map {α : Type} (tok : GdString) (f : α → List Piece) :
    ∀ l : List α, (∀ x ∈ l, tokHitCount tok (f x) = 1) →
      tokHitCount tok (l.map f).flatten = l.length := by
  intro l
  induction l with
  | nil => intro _; rfl
  | cons x l ih =>
    intro h
    rw [List.map_cons, List.flatten_cons, tokHitCount_append, h x (by simp),
      ih fun y hy => h y (by simp [hy]), List.length_cons]
    omega

theorem overlapFree_flatten {tok : GdString} :
    ∀ l : List GdString, (∀ s ∈ l, overlapFree tok s = true) →
      overlapFree tok l.flatten = true := by
  intro l
  induction l with
  | nil => intro _; exact overlapFree_nil tok
  | cons x l ih =>
    intro h
    rw [List.flatten_cons]
    exact overlapFree_append (h x (by simp)) (ih fun s hs => h s (by simp [hs]))

theorem map_congr_mem {α β : Type} (f g : α → β) :
    ∀ l : List α, (∀ a ∈ l, f a = g a) → l.map f = l.map g := by
  intro l
  induction l with
  | nil => intro _; rfl
  | cons x l ih =>
    intro h
    rw [List.map_cons, List.map_cons, h x (by simp),
      ih fun a ha => h a (by simp [ha])]

theorem critTok_init_segs : ∀ t ∈ criticalTokens,
    (overlapFree t segInitA && overlapFree t segInitB && overlapFree t segInitC
      && overlapFree t segInitD && overlapFree t segInitE
      && overlapFree t segInitF) = true := by decide

theorem critTok_upd_segs : ∀ t ∈ criticalTokens,
    (overlapFree t segUpdA && overlapFree t segUpdB && overlapFree t segUpdC
      && overlapFree t segUpdD) = true := by decide

theorem critTokGetSeg : ∀ t ∈ criticalTokens,
    overlapFree t ("Get".toList) = true := by decide

theorem critTokSetSeg : ∀ t ∈ criticalTokens,
    overlapFree t ("Set".toList) = true := by decide

/-- The per-property initializer (either branch of the hidden dispatch) is
overlap-free for every critical token when the name and rendered default
are clean. -/
theorem overlapFree_initFragment {t : GdString} (ht : t ∈ criticalTokens)
    {p : NamedPropertyDescriptor}
    (hpn : cleanForCodegen p.name = true)
    (hdv : cleanForCodegen (generatePropertyValueCode p) = true) :
    overlapFree t
      (if p.hidden then generateInitializePropertyFromDefaultValueCode p
        else generateInitializePropertyFromDataCode p) = true := by
  have hsegs := critTok_init_segs t ht
  simp only [Bool.and_eq_true] at hsegs
  obtain ⟨⟨⟨⟨⟨hA, hB⟩, hC⟩, hD⟩, hE⟩, hF⟩ := hsegs
  have hname : overlapFree t p.name = true := cleanForCodegen_spec hpn ht
  have hdflt : overlapFree t (generatePropertyValueCode p) = true :=
    cleanForCodegen_spec hdv ht
  have hn : overlapFree tokDEFAULT_VALUE p.name = true :=
    cleanForCodegen_spec hpn (by decide)
  by_cases hh : p.hidden
  · rw [if_pos hh, initFromDefault_decomposition p hn]
    simp only [List.append_assoc]
    exact overlapFree_append hA (overlapFree_append hname
      (overlapFree_append hF (overlapFree_append hdflt hE)))
  · rw [if_neg hh, initFromData_decomposition p hn]
    simp only [List.append_assoc]
    exact overlapFree_append hA (overlapFree_append hname
      (overlapFree_append hB (overlapFree_append hname
        (overlapFree_append hC (overlapFree_append hname
          (overlapFree_append hD (overlapFree_append hdflt hE)))))))

/-- The whole initialization fragment is overlap-free for every critical
token. -/
theorem overlapFree_initCode {t : GdString} (ht : t ∈ criticalTokens)
    {beh : EventsBasedBehavior}
    (hprops : ∀ p ∈ beh.propertyDescriptors,
      cleanForCodegen p.name = true ∧
      cleanForCodegen (generatePropertyValueCode p) = true) :
    overlapFree t (generateInitializePropertiesCode beh) = true := by
  unfold generateInitializePropertiesCode
  apply overlapFree_flatten
  intro s hs
  rcases List.mem_map.mp hs with ⟨p, hp, rfl⟩
  exact overlapFree_initFragment ht (hprops p hp).1 (hprops p hp).2

/-- The whole hot-reload fragment is overlap-free for every critical token. -/
theorem overlapFree_updateCode {t : GdString} (ht : t ∈ criticalTokens)
    {beh : EventsBasedBehavior} {ns : GdString}
    (hprops : ∀ p ∈ beh.propertyDescriptors,
      cleanForCodegen p.name = true ∧
      cleanForCodegen (generatePropertyValueCode p) = true) :
    overlapFree t (generateUpdateFromBehaviorDataCode beh ns) = true := by
  unfold generateUpdateFromBehaviorDataCode
  apply overlapFree_flatten
  intro s hs
  rcases List.mem_map.mp hs with ⟨p, hp, rfl⟩
  have hsegs := critTok_upd_segs t ht
  simp only [Bool.and_eq_true] at hsegs
  obtain ⟨⟨⟨hA, hB⟩, hC⟩, hD⟩ := hsegs
  have hE : overlapFree t segInitE = true := by
    have h0 := critTok_init_segs t ht
    simp only [Bool.and_eq_true] at h0
    exact h0.1.2
  have hname : overlapFree t p.name = true :=
    cleanForCodegen_spec (hprops p hp).1 ht
  rw [updateProperty_decomposition beh ns p]
  simp only [List.append_assoc]
  exact overlapFree_append hA (overlapFree_append hname
    (overlapFree_append hB (overlapFree_append hname
      (overlapFree_append hC (overlapFree_append hname
        (overlapFree_append hD (overlapFree_append hname hE)))))))

/-- The generated module fully decomposed: the skeleton atoms around the
substituted names and the four generated fragments, provided every
substituted value is clean for code generation. -/
theorem module_decomposition (gen : MethodBodyGenerator) (extName : GdString)
    (beh : EventsBasedBehavior) (ns : GdString)
    (m : List (GdString × GdString))
    (hext : cleanForCodegen extName = true)
    (hbn : cleanForCodegen beh.name = true)
    (hfn : cleanForCodegen beh.fullName = true)
    (hns : cleanForCodegen ns = true)
    (hprops : ∀ p ∈ beh.propertyDescriptors,
      cleanForCodegen p.name = true ∧
      cleanForCodegen (generatePropertyValueCode p) = true)
    (hmeth : cleanForCodegen (generateMethodsCode gen beh ns m) = true) :
    generateRuntimeBehaviorCompleteCode gen extName beh ns m
      = renderPieces (moduleFinalPieces extName beh.name beh.fullName ns
          (generateInitializePropertiesCode beh)
          (generateUpdateFromBehaviorDataCode beh ns)
          (generateMethodsCode gen beh ns m)
          (generatePropertiesCode beh ns)) := by
  have nilHoles : ∀ P : GdString → Prop, ∀ v ∈ ([] : List GdString), P v :=
    fun P v hv => absurd hv (List.not_mem_nil v)
  have he : ∀ t ∈ criticalTokens, overlapFree t extName = true :=
    fun t ht => cleanForCodegen_spec hext ht
  have hb : ∀ t ∈ criticalTokens, overlapFree t beh.name = true :=
    fun t ht => cleanForCodegen_spec hbn ht
  have hf : ∀ t ∈ criticalTokens, overlapFree t beh.fullName = true :=
    fun t ht => cleanForCodegen_spec hfn ht
  have hn : ∀ t ∈ criticalTokens, overlapFree t ns = true :=
    fun t ht => cleanForCodegen_spec hns ht
  have hiUF : overlapFree tokUPDATE_FROM_BEHAVIOR_DATA_CODE
      (generateInitializePropertiesCode beh) = true :=
    overlapFree_initCode (by decide) hprops
  have hiPC : overlapFree tokPROPERTIES_CODE
      (generateInitializePropertiesCode beh) = true :=
    overlapFree_initCode (by decide) hprops
  have hiMC : overlapFree tokMETHODS_CODE
      (generateInitializePropertiesCode beh) = true :=
    overlapFree_initCode (by decide) hprops
  have huPC : overlapFree tokPROPERTIES_CODE
      (generateUpdateFromBehaviorDataCode beh ns) = true :=
    overlapFree_updateCode (by decide) hprops
  have huMC : overlapFree tokMETHODS_CODE
      (generateUpdateFromBehaviorDataCode beh ns) = true :=
    overlapFree_updateCode (by decide) hprops
  have hmMC : overlapFree tokMETHODS_CODE
      (generateMethodsCode gen beh ns m) = true :=
    cleanForCodegen_spec hmeth (by decide)
  have hT1 : behaviorTemplate = renderPieces modPieces1 := by decide
  unfold generateRuntimeBehaviorCompleteCode generateRuntimeBehaviorTemplateCode
  rw [hT1,
    findAndReplace_pieces tokEXTENSION_NAME extName (by decide) modPieces1
      (by decide) (nilHoles _),
    show renderPieces (modPieces1.map (substPiece tokEXTENSION_NAME extName))
        = renderPieces (modPieces2 extName) from rfl,
    findAndReplace_pieces tokBEHAVIOR_NAME beh.name (by decide)
      (modPieces2 extName) (by rfl)
      (List.forall_mem_cons.mpr ⟨he _ (by decide), nilHoles _⟩),
    show renderPieces ((modPieces2 extName).map
          (substPiece tokBEHAVIOR_NAME beh.name))
        = renderPieces (modPieces3 extName beh.name) from rfl,
    findAndReplace_pieces tokBEHAVIOR_FULL_NAME beh.fullName (by decide)
      (modPieces3 extName beh.name) (by rfl)
      (List.forall_mem_cons.mpr ⟨he _ (by decide),
        List.forall_mem_cons.mpr ⟨hb _ (by decide), nilHoles _⟩⟩),
    show renderPieces ((modPieces3 extName beh.name).map
          (substPiece tokBEHAVIOR_FULL_NAME beh.fullName))
        = renderPieces (modPieces4 extName beh.name beh.fullName) from rfl,
    findAndReplace_pieces tokRUNTIME_BEHAVIOR_CLASSNAME beh.name (by decide)
      (modPieces4 extName beh.name beh.fullName) (by rfl)
      (List.forall_mem_cons.mpr ⟨hf _ (by decide),
        List.forall_mem_cons.mpr ⟨he _ (by decide),
          List.forall_mem_cons.mpr ⟨hb _ (by decide), nilHoles _⟩⟩⟩),
    show renderPieces ((modPieces4 extName beh.name beh.fullName).map
          (substPiece tokRUNTIME_BEHAVIOR_CLASSNAME beh.name))
        = renderPieces (modPieces5 extName beh.name beh.fullName) from rfl,
    findAndReplace_pieces tokCODE_NAMESPACE ns (by decide)
      (modPieces5 extName beh.name beh.fullName) (by rfl)
      (List.forall_mem_cons.mpr ⟨hf _ (by decide),
        List.forall_mem_cons.mpr ⟨hb _ (by decide),
          List.forall_mem_cons.mpr ⟨hb _ (by decide),
            List.forall_mem_cons.mpr ⟨hb _ (by decide),
              List.forall_mem_cons.mpr ⟨he _ (by decide),
                List.forall_mem_cons.mpr ⟨hb _ (by decide),
                  List.forall_mem_cons.mpr ⟨hb _ (by decide),
                    List.forall_mem_cons.mpr ⟨hb _ (by decide),
                      nilHoles _⟩⟩⟩⟩⟩⟩⟩⟩),
    show renderPieces ((modPieces5 extName beh.name beh.fullName).map
          (substPiece tokCODE_NAMESPACE ns))
        = renderPieces (modPieces6 extName beh.name beh.fullName ns) from rfl,
    findAndReplace_pieces tokINITIALIZE_PROPERTIES_CODE
      (generateInitializePropertiesCode beh) (by decide)
      (modPieces6 extName beh.name beh.fullName ns) (by rfl)
      (List.forall_mem_cons.mpr ⟨hn _ (by decide),
        List.forall_mem_cons.mpr ⟨hn _ (by decide),
          List.forall_mem_cons.mpr ⟨hf _ (by decide),
            List.forall_mem_cons.mpr ⟨hb _ (by decide),
              List.forall_mem_cons.mpr ⟨hn _ (by decide),
                List.forall_mem_cons.mpr ⟨hb _ (by decide),
                  List.forall_mem_cons.mpr ⟨hn _ (by decide),
                    List.forall_mem_cons.mpr ⟨hb _ (by decide),
                      List.forall_mem_cons.mpr ⟨he _ (by decide),
                        List.forall_mem_cons.mpr ⟨hb _ (by decide),
                          List.forall_mem_cons.mpr ⟨hn _ (by decide),
                            List.forall_mem_cons.mpr ⟨hb _ (by decide),
                              List.forall_mem_cons.mpr ⟨hn _ (by decide),
                                List.forall_mem_cons.mpr ⟨hb _ (by decide),
                                  nilHoles _⟩⟩⟩⟩⟩⟩⟩⟩⟩⟩⟩⟩⟩⟩),
    show renderPieces ((modPieces6 extName beh.name beh.fullName ns).map
          (substPiece tokINITIALIZE_PROPERTIES_CODE
            (generateInitializePropertiesCode beh)))
        = renderPieces (modPieces7 extName beh.name beh.fullName ns
            (generateInitializePropertiesCode beh)) from rfl,
    findAndReplace_pieces tokUPDATE_FROM_BEHAVIOR_DATA_CODE
      (generateUpdateFromBehaviorDataCode beh ns) (by decide)
      (modPieces7 extName beh.name beh.fullName ns
        (generateInitializePropertiesCode beh)) (by rfl)
      (List.forall_mem_cons.mpr ⟨hn _ (by decide),
        List.forall_mem_cons.mpr ⟨hn _ (by decide),
          List.forall_mem_cons.mpr ⟨hf _ (by decide),
            List.forall_mem_cons.mpr ⟨hb _ (by decide),
              List.forall_mem_cons.mpr ⟨hn _ (by decide),
                List.forall_mem_cons.mpr ⟨hb _ (by decide),
                  List.forall_mem_cons.mpr ⟨hiUF,
                    List.forall_mem_cons.mpr ⟨hn _ (by decide),
                      List.forall_mem_cons.mpr ⟨hb _ (by decide),
                        List.forall_mem_cons.mpr ⟨he _ (by decide),
                          List.forall_mem_cons.mpr ⟨hb _ (by decide),
                            List.forall_mem_cons.mpr ⟨hn _ (by decide),
                              List.forall_mem_cons.mpr ⟨hb _ (by decide),
                                List.forall_mem_cons.mpr ⟨hn _ (by decide),
                                  List.forall_mem_cons.mpr ⟨hb _ (by decide),
                                    nilHoles _⟩⟩⟩⟩⟩⟩⟩⟩⟩⟩⟩⟩⟩⟩⟩),
    show renderPieces ((modPieces7 extName beh.name beh.fullName ns
          (generateInitializePropertiesCode beh)).map
            (substPiece tokUPDATE_FROM_BEHAVIOR_DATA_CODE
              (generateUpdateFromBehaviorDataCode beh ns)))
        = renderPieces (modPieces8 extName beh.name beh.fullName ns
            (generateInitializePropertiesCode beh)
            (generateUpdateFromBehaviorDataCode beh ns)) from rfl,
    findAndReplace_pieces tokPROPERTIES_CODE
      (generateMethodsCode gen beh ns m) (by decide)
      (modPieces8 extName beh.name beh.fullName ns
        (generateInitializePropertiesCode beh)
        (generateUpdateFromBehaviorDataCode beh ns)) (by rfl)
      (List.forall_mem_cons.mpr ⟨hn _ (by decide),
        List.forall_mem_cons.mpr ⟨hn _ (by decide),
          List.forall_mem_cons.mpr ⟨hf _ (by decide),
            List.forall_mem_cons.mpr ⟨hb _ (by decide),
              List.forall_mem_cons.mpr ⟨hn _ (by decide),
                List.forall_mem_cons.mpr ⟨hb _ (by decide),
                  List.forall_mem_cons.mpr ⟨hiPC,
                    List.forall_mem_cons.mpr ⟨hn _ (by decide),
                      List.forall_mem_cons.mpr ⟨hb _ (by decide),
                        List.forall_mem_cons.mpr ⟨he _ (by decide),
                          List.forall_mem_cons.mpr ⟨hb _ (by decide),
                            List.forall_mem_cons.mpr ⟨hn _ (by decide),
                              List.forall_mem_cons.mpr ⟨hb _ (by decide),
                                List.forall_mem_cons.mpr ⟨hn _ (by decide),
                                  List.forall_mem_cons.mpr ⟨hb _ (by decide),
                                    List.forall_mem_cons.mpr ⟨huPC,
                                      nilHoles _⟩⟩⟩⟩⟩⟩⟩⟩⟩⟩⟩⟩⟩⟩⟩⟩),
    show renderPieces ((modPieces8 extName beh.name beh.fullName ns
          (generateInitializePropertiesCode beh)
          (generateUpdateFromBehaviorDataCode beh ns)).map
            (substPiece tokPROPERTIES_CODE (generateMethodsCode gen beh ns m)))
        = renderPieces (modPieces9 extName beh.name beh.fullName ns
            (generateInitializePropertiesCode beh)
            (generateUpdateFromBehaviorDataCode beh ns)
            (generateMethodsCode gen beh ns m)) from rfl,
    findAndReplace_pieces tokMETHODS_CODE
      (generatePropertiesCode beh ns) (by decide)
      (modPieces9 extName beh.name beh.fullName ns
        (generateInitializePropertiesCode beh)
        (generateUpdateFromBehaviorDataCode beh ns)
        (generateMethodsCode gen beh ns m)) (by rfl)
      (List.forall_mem_cons.mpr ⟨hn _ (by decide),
        List.forall_mem_cons.mpr ⟨hn _ (by decide),
          List.forall_mem_cons.mpr ⟨hf _ (by decide),
            List.forall_mem_cons.mpr ⟨hb _ (by decide),
              List.forall_mem_cons.mpr ⟨hn _ (by decide),
                List.forall_mem_cons.mpr ⟨hb _ (by decide),
                  List.forall_mem_cons.mpr ⟨hiMC,
                    List.forall_mem_cons.mpr ⟨hn _ (by decide),
                      List.forall_mem_cons.mpr ⟨hb _ (by decide),
                        List.forall_mem_cons.mpr ⟨he _ (by decide),
                          List.forall_mem_cons.mpr ⟨hb _ (by decide),
                            List.forall_mem_cons.mpr ⟨hn _ (by decide),
                              List.forall_mem_cons.mpr ⟨hb _ (by decide),
                                List.forall_mem_cons.mpr ⟨hn _ (by decide),
                                  List.forall_mem_cons.mpr ⟨hb _ (by decide),
                                    List.forall_mem_cons.mpr ⟨huMC,
                                      List.forall_mem_cons.mpr ⟨hmMC,
                                        nilHoles _⟩⟩⟩⟩⟩⟩⟩⟩⟩⟩⟩⟩⟩⟩⟩⟩⟩),
    show renderPieces ((modPieces9 extName beh.name beh.fullName ns
          (generateInitializePropertiesCode beh)
          (generateUpdateFromBehaviorDataCode beh ns)
          (generateMethodsCode gen beh ns m)).map
            (substPiece tokMETHODS_CODE (generatePropertiesCode beh ns)))
        = renderPieces (moduleFinalPieces extName beh.name beh.fullName ns
            (generateInitializePropertiesCode beh)
            (generateUpdateFromBehaviorDataCode beh ns)
            (generateMethodsCode gen beh ns m)
            (generatePropertiesCode beh ns)) from rfl]

/-- The counting piece list for one property renders exactly to its accessor
pair: the two markers are literal slices of the accessor skeleton. -/
theorem accessorCountPieces_render (beh : EventsBasedBehavior) (ns : GdString)
    (p : NamedPropertyDescriptor)
    (hpn : cleanForCodegen p.name = true)
    (hdv : cleanForCodegen (generatePropertyValueCode p) = true)
    (hbn : cleanForCodegen beh.name = true) :
    renderPieces (accessorCountPieces beh ns p)
      = generateRuntimeBehaviorPropertyTemplateCode beh ns p := by
  rw [accessor_decomposition beh ns p hpn hdv hbn]
  rw [show segAccGetOpen = skH2 ++ getterMarker from by decide,
    show segAccSetOpen = skH2 ++ setterMarker from by decide]
  simp [accessorCountPieces, renderPieces, List.append_assoc]

/-- Counting a marker in the generated module: it occurs exactly once per
property, inside that property's accessor pair, and nowhere else. -/
theorem module_marker_count (gen : MethodBodyGenerator) (extName : GdString)
    (beh : EventsBasedBehavior) (ns : GdString)
    (m : List (GdString × GdString)) (tok : GdString)
    (htok : tok ≠ []) (ht : tok ∈ criticalTokens)
    (hext : cleanForCodegen extName = true)
    (hbn : cleanForCodegen beh.name = true)
    (hfn : cleanForCodegen beh.fullName = true)
    (hns : cleanForCodegen ns = true)
    (hprops : ∀ p ∈ beh.propertyDescriptors,
      cleanForCodegen p.name = true ∧
      cleanForCodegen (generatePropertyValueCode p) = true)
    (hmeth : cleanForCodegen (generateMethodsCode gen beh ns m) = true)
    (hlitsF : litsOK tok (moduleFrontPieces extName beh.name beh.fullName ns
      (generateInitializePropertiesCode beh)
      (generateUpdateFromBehaviorDataCode beh ns)
      (generateMethodsCode gen beh ns m)) = true)
    (hlitsT : litsOK tok moduleTailPieces = true)
    (hlitsA : ∀ p, litsOK tok (accessorCountPieces beh ns p) = true)
    (hhitF : tokHitCount tok (moduleFrontPieces extName beh.name beh.fullName ns
      (generateInitializePropertiesCode beh)
      (generateUpdateFromBehaviorDataCode beh ns)
      (generateMethodsCode gen beh ns m)) = 0)
    (hhitT : tokHitCount tok moduleTailPieces = 0)
    (hhitA : ∀ p, tokHitCount tok (accessorCountPieces beh ns p) = 1) :
    countOccur tok (generateRuntimeBehaviorCompleteCode gen extName beh ns m)
      = beh.propertyDescriptors.length := by
  have hpc : renderPieces
      ((beh.propertyDescriptors.map (accessorCountPieces beh ns)).flatten)
      = generatePropertiesCode beh ns := by
    rw [renderPieces_flatten, List.map_map]
    unfold generatePropertiesCode
    congr 1
    refine map_congr_mem _ _ _ ?_
    intro p hp
    exact accessorCountPieces_render beh ns p (hprops p hp).1 (hprops p hp).2 hbn
  have hren : renderPieces (moduleFinalPieces extName beh.name beh.fullName ns
        (generateInitializePropertiesCode beh)
        (generateUpdateFromBehaviorDataCode beh ns)
        (generateMethodsCode gen beh ns m)
        (generatePropertiesCode beh ns))
      = renderPieces (moduleFrontPieces extName beh.name beh.fullName ns
          (generateInitializePropertiesCode beh)
          (generateUpdateFromBehaviorDataCode beh ns)
          (generateMethodsCode gen beh ns m)
        ++ ((beh.propertyDescriptors.map (accessorCountPieces beh ns)).flatten
          ++ moduleTailPieces)) := by
    rw [show moduleFinalPieces extName beh.name beh.fullName ns
          (generateInitializePropertiesCode beh)
          (generateUpdateFromBehaviorDataCode beh ns)
          (generateMethodsCode gen beh ns m)
          (generatePropertiesCode beh ns)
        = moduleFrontPieces extName beh.name beh.fullName ns
            (generateInitializePropertiesCode beh)
            (generateUpdateFromBehaviorDataCode beh ns)
            (generateMethodsCode gen beh ns m)
          ++ (Piece.hole (generatePropertiesCode beh ns)
            :: moduleTailPieces) from rfl,
      renderPieces_append, renderPieces_append, renderPieces_append, hpc]
    rfl
  have hN : overlapFree tok ns = true := cleanForCodegen_spec hns ht
  have hB : overlapFree tok beh.name = true := cleanForCodegen_spec hbn ht
  have hFn : overlapFree tok beh.fullName = true := cleanForCodegen_spec hfn ht
  have hEx : overlapFree tok extName = true := cleanForCodegen_spec hext ht
  have hI : overlapFree tok (generateInitializePropertiesCode beh) = true :=
    overlapFree_initCode ht hprops
  have hU : overlapFree tok (generateUpdateFromBehaviorDataCode beh ns) = true :=
    overlapFree_updateCode ht hprops
  have hM : overlapFree tok (generateMethodsCode gen beh ns m) = true :=
    cleanForCodegen_spec hmeth ht
  have nilHoles : ∀ P : GdString → Prop, ∀ v ∈ ([] : List GdString), P v :=
    fun P v hv => absurd hv (List.not_mem_nil v)
  have hholesF : ∀ v ∈ holesOf (moduleFrontPieces extName beh.name beh.fullName
      ns (generateInitializePropertiesCode beh)
      (generateUpdateFromBehaviorDataCode beh ns)
      (generateMethodsCode gen beh ns m)),
      overlapFree tok v = true :=
    List.forall_mem_cons.mpr ⟨hN, List.forall_mem_cons.mpr ⟨hN,
      List.forall_mem_cons.mpr ⟨hFn, List.forall_mem_cons.mpr ⟨hB,
        List.forall_mem_cons.mpr ⟨hN, List.forall_mem_cons.mpr ⟨hB,
          List.forall_mem_cons.mpr ⟨hI, List.forall_mem_cons.mpr ⟨hN,
            List.forall_mem_cons.mpr ⟨hB, List.forall_mem_cons.mpr ⟨hEx,
              List.forall_mem_cons.mpr ⟨hB, List.forall_mem_cons.mpr ⟨hN,
                List.forall_mem_cons.mpr ⟨hB, List.forall_mem_cons.mpr ⟨hN,
                  List.forall_mem_cons.mpr ⟨hB, List.forall_mem_cons.mpr ⟨hU,
                    List.forall_mem_cons.mpr ⟨hM,
                      nilHoles _⟩⟩⟩⟩⟩⟩⟩⟩⟩⟩⟩⟩⟩⟩⟩⟩⟩
  have hholesT : ∀ v ∈ holesOf moduleTailPieces,
      overlapFree tok v = true :=
    nilHoles _
  have hholesA : ∀ ps ∈ beh.propertyDescriptors.map (accessorCountPieces beh ns),
      ∀ v ∈ holesOf ps, overlapFree tok v = true := by
    intro ps hps
    rcases List.mem_map.mp hps with ⟨p, hp, rfl⟩
    have hPn : overlapFree tok p.name = true :=
      cleanForCodegen_spec (hprops p hp).1 ht
    have hDv : overlapFree tok (generatePropertyValueCode p) = true :=
      cleanForCodegen_spec (hprops p hp).2 ht
    have hG : overlapFree tok (getBehaviorPropertyGetterName p.name) = true :=
      overlapFree_append (critTokGetSeg tok ht) hPn
    have hS : overlapFree tok (getBehaviorPropertySetterName p.name) = true :=
      overlapFree_append (critTokSetSeg tok ht) hPn
    exact List.forall_mem_cons.mpr ⟨hN, List.forall_mem_cons.mpr ⟨hB,
      List.forall_mem_cons.mpr ⟨hG, List.forall_mem_cons.mpr ⟨hPn,
        List.forall_mem_cons.mpr ⟨hPn, List.forall_mem_cons.mpr ⟨hDv,
          List.forall_mem_cons.mpr ⟨hN, List.forall_mem_cons.mpr ⟨hB,
            List.forall_mem_cons.mpr ⟨hS, List.forall_mem_cons.mpr ⟨hPn,
              nilHoles _⟩⟩⟩⟩⟩⟩⟩⟩⟩⟩
  have hlitsAll : litsOK tok (moduleFrontPieces extName beh.name beh.fullName ns
        (generateInitializePropertiesCode beh)
        (generateUpdateFromBehaviorDataCode beh ns)
        (generateMethodsCode gen beh ns m)
      ++ ((beh.propertyDescriptors.map (accessorCountPieces beh ns)).flatten
        ++ moduleTailPieces)) = true := by
    rw [litsOK_append, litsOK_append, hlitsF, hlitsT,
      litsOK_flatten (beh.propertyDescriptors.map (accessorCountPieces beh ns))
        (by
          intro ps hps
          rcases List.mem_map.mp hps with ⟨p, hp, rfl⟩
          exact hlitsA p)]
    rfl
  have hholesAll : ∀ v ∈ holesOf (moduleFrontPieces extName beh.name
        beh.fullName ns (generateInitializePropertiesCode beh)
        (generateUpdateFromBehaviorDataCode beh ns)
        (generateMethodsCode gen beh ns m)
      ++ ((beh.propertyDescriptors.map (accessorCountPieces beh ns)).flatten
        ++ moduleTailPieces)),
      overlapFree tok v = true := by
    rw [holesOf_append, holesOf_append]
    intro v hv
    rcases List.mem_append.mp hv with h1 | h1
    · exact hholesF v h1
    · rcases List.mem_append.mp h1 with h2 | h2
      · exact holes_flatten _ hholesA v h2
      · exact hholesT v h2
  rw [module_decomposition gen extName beh ns m hext hbn hfn hns hprops hmeth,
    hren,
    countOccur_pieces tok htok
      (moduleFrontPieces extName beh.name beh.fullName ns
          (generateInitializePropertiesCode beh)
          (generateUpdateFromBehaviorDataCode beh ns)
          (generateMethodsCode gen beh ns m)
        ++ ((beh.propertyDescriptors.map (accessorCountPieces beh ns)).flatten
          ++ moduleTailPieces))
      hlitsAll hholesAll,
    tokHitCount_append, tokHitCount_append, hhitF, hhitT,
    tokHitCount_flatten_map tok (accessorCountPieces beh ns)
      beh.propertyDescriptors (fun p _ => hhitA p)]
  omega

/-- C3: for every behavior whose substituted values are clean for code
generation, the generated module contains exactly one accessor pair per
property — the getter marker (the getter body prefix reading the stored
slot) and the setter marker (the setter body prefix overwriting it) each
occur exactly `propertyDescriptors.length` times — the accessor pair is
generated identically whatever the property's hidden flag is, and for each
property the module contains, verbatim and contiguously, its accessor pair:
a getter returning the stored slot with fallback to the rendered default
when the slot is undefined, then a setter unconditionally overwriting the
stored slot with the new value. -/
theorem accessor_pairs_spec (gen : MethodBodyGenerator) (extName : GdString)
    (beh : EventsBasedBehavior) (ns : GdString)
    (m : List (GdString × GdString))
    (hext : cleanForCodegen extName = true)
    (hbn : cleanForCodegen beh.name = true)
    (hfn : cleanForCodegen beh.fullName = true)
    (hns : cleanForCodegen ns = true)
    (hprops : ∀ p ∈ beh.propertyDescriptors,
      cleanForCodegen p.name = true ∧
      cleanForCodegen (generatePropertyValueCode p) = true)
    (hmeth : cleanForCodegen (generateMethodsCode gen beh ns m) = true) :
    countOccur getterMarker
        (generateRuntimeBehaviorCompleteCode gen extName beh ns m)
      = beh.propertyDescriptors.length ∧
    countOccur setterMarker
        (generateRuntimeBehaviorCompleteCode gen extName beh ns m)
      = beh.propertyDescriptors.length ∧
    (∀ p ∈ beh.propertyDescriptors, ∀ b : Bool,
      generateRuntimeBehaviorPropertyTemplateCode beh ns
          { p with hidden := b }
        = generateRuntimeBehaviorPropertyTemplateCode beh ns p) ∧
    (∀ p ∈ beh.propertyDescriptors,
      ∃ a b, generateRuntimeBehaviorCompleteCode gen extName beh ns m
        = a ++ (segAccNl ++ ns ++ segAccDot ++ beh.name ++ segAccProto
            ++ getBehaviorPropertyGetterName p.name ++ segAccGetOpen ++ p.name
            ++ segAccUndef ++ p.name ++ segAccColon
            ++ generatePropertyValueCode p ++ segAccMid ++ ns ++ segAccDot
            ++ beh.name ++ segAccProto ++ getBehaviorPropertySetterName p.name
            ++ segAccSetOpen ++ p.name ++ segAccSet) ++ b) := by
  refine ⟨?_, ?_, fun p _ b => rfl, ?_⟩
  · exact module_marker_count gen extName beh ns m getterMarker (by decide)
      (by decide) hext hbn hfn hns hprops hmeth (by rfl) (by rfl)
      (fun p => rfl) (by rfl) (by rfl) (fun p => rfl)
  · exact module_marker_count gen extName beh ns m setterMarker (by decide)
      (by decide) hext hbn hfn hns hprops hmeth (by rfl) (by rfl)
      (fun p => rfl) (by rfl) (by rfl) (fun p => rfl)
  · intro p hp
    obtain ⟨a0, b0, hab⟩ := flatten_map_contains
      (generateRuntimeBehaviorPropertyTemplateCode beh ns)
      beh.propertyDescriptors hp
    refine ⟨renderPieces (moduleFrontPieces extName beh.name beh.fullName ns
        (generateInitializePropertiesCode beh)
        (generateUpdateFromBehaviorDataCode beh ns)
        (generateMethodsCode gen beh ns m)) ++ a0,
      b0 ++ renderPieces moduleTailPieces,
      ?_⟩
    rw [module_decomposition gen extName beh ns m hext hbn hfn hns hprops hmeth]
    have hsplit : renderPieces (moduleFinalPieces extName beh.name beh.fullName
          ns (generateInitializePropertiesCode beh)
          (generateUpdateFromBehaviorDataCode beh ns)
          (generateMethodsCode gen beh ns m)
          (generatePropertiesCode beh ns))
        = renderPieces (moduleFrontPieces extName beh.name beh.fullName ns
            (generateInitializePropertiesCode beh)
            (generateUpdateFromBehaviorDataCode beh ns)
            (generateMethodsCode gen beh ns m))
          ++ (generatePropertiesCode beh ns
            ++ renderPieces moduleTailPieces) := by
      rw [show moduleFinalPieces extName beh.name beh.fullName ns
            (generateInitializePropertiesCode beh)
            (generateUpdateFromBehaviorDataCode beh ns)
            (generateMethodsCode gen beh ns m)
            (generatePropertiesCode beh ns)
          = moduleFrontPieces extName beh.name beh.fullName ns
              (generateInitializePropertiesCode beh)
              (generateUpdateFromBehaviorDataCode beh ns)
              (generateMethodsCode gen beh ns m)
            ++ (Piece.hole (generatePropertiesCode beh ns)
              :: moduleTailPieces) from rfl,
        renderPieces_append]
      rfl
    rw [hsplit,
      show generatePropertiesCode beh ns
          = a0 ++ generateRuntimeBehaviorPropertyTemplateCode beh ns p ++ b0
        from hab,
      accessor_decomposition beh ns p (hprops p hp).1 (hprops p hp).2 hbn]
    simp [List.append_assoc]

/-- C3 witness: the sample behavior with two properties (one hidden, one not)
yields exactly two getter markers and two setter markers in its generated
module. -/
theorem accessor_pairs_spec_witness :
    countOccur getterMarker (generateRuntimeBehaviorCompleteCode sampleGen
        ("MyExtension".toList) sampleBehavior sampleNamespace
        sampleMangledNames) = 2 ∧
    countOccur setterMarker (generateRuntimeBehaviorCompleteCode sampleGen
        ("MyExtension".toList) sampleBehavior sampleNamespace
        sampleMangledNames) = 2 := by
  have h := accessor_pairs_spec sampleGen ("MyExtension".toList) sampleBehavior
    sampleNamespace sampleMangledNames (by decide) (by decide) (by decide)
    (by decide) (by decide) (by decide)
  exact ⟨h.1, h.2.1⟩

end GdjsSpec
